import Mathlib

/-!
Verification of the shadowdhcp reservation-only DHCPv4/DHCPv6 server.

This file shallowly embeds the data model and the message handlers of the
repository (src/lib.rs, src/reservationdb.rs, src/leasedb.rs,
src/v4/handlers.rs, src/v6/handlers.rs, src/v4/worker.rs, src/v6/worker.rs)
and proves properties of them.

Conventions of the embedding:
  * machine integers become Nat (u32 addresses, u16 flags, u128 v6 addresses);
    saturating arithmetic is written out explicitly where the source uses it;
  * std::time::Instant becomes an explicit Nat clock value passed to the
    operations that read the clock;
  * DashMap-backed stores become association lists where an insert prepends
    and a lookup takes the first hit (last-writer-wins, like DashMap insert);
  * dhcproto v4 options (a HashMap keyed by option code) become a list with
    a replace-or-append insert; dhcproto v6 options (a Vec allowing several
    options of one code) become a list with an appending insert;
  * byte strings that the source converts to UTF-8 text (Option 82 subfields)
    are modelled directly as optional strings, None covering the absent /
    empty / non-UTF-8 cases collapsed by the source accessors.
-/

namespace ShadowDhcp

/-! ## Core data model (src/lib.rs) -/

/-- DHCPv4 Option 82 subfields, `Option82` in src/lib.rs. -/
structure Option82 where
  circuit : Option String
  remote : Option String
  subscriber : Option String
deriving DecidableEq, Repr

/-- DHCPv6 Option 18/37 subfields, `Option1837` in src/lib.rs. -/
structure Option1837 where
  interface : Option String
  remote : Option String
  enterprise_number : Option Nat
deriving DecidableEq, Repr

/-- A MAC address: the six bytes of `MacAddr6`. -/
abbrev Mac := List Nat

/-- A DUID: its raw bytes (`Duid.bytes` in src/lib.rs). -/
abbrev Duid := List Nat

/-- `MacAddr6::try_from(&[u8])`: succeeds exactly on a 6-byte slice. -/
def macAddr6TryFrom (chaddr : List Nat) : Option Mac :=
  if chaddr.length = 6 then some chaddr else none

/-- An IPv4 network `Ipv4Net` (ipnet): network address as a u32 plus a
prefix length. -/
structure Ipv4Net where
  addr : Nat
  prefixLen : Nat
deriving DecidableEq, Repr

/-- The netmask of a prefix length: the high `p` bits of a u32 set. -/
def netmaskOfPrefixLen (p : Nat) : Nat :=
  if p ≥ 32 then 2 ^ 32 - 1 else 2 ^ 32 - 2 ^ (32 - p)

/-- `Ipv4Net::netmask()`. -/
def Ipv4Net.netmask (n : Ipv4Net) : Nat :=
  netmaskOfPrefixLen n.prefixLen

/-- `Ipv4Net::contains(&ip)`: the address agrees with the network on the
masked high bits. -/
def Ipv4Net.contains (n : Ipv4Net) (ip : Nat) : Bool :=
  ip &&& n.netmask = n.addr &&& n.netmask

/-- `V4Subnet` in src/lib.rs. -/
structure V4Subnet where
  net : Ipv4Net
  gateway : Nat
  reply_prefix_len : Option Nat
deriving DecidableEq, Repr

/-- `V4Subnet::reply_netmask` in src/lib.rs: uses the `reply_prefix_len`
override when set, else the prefix of `net`. -/
def V4Subnet.reply_netmask (s : V4Subnet) : Nat :=
  let prefixLen := s.reply_prefix_len.getD s.net.prefixLen
  if prefixLen = 0 then 0
  else if prefixLen ≥ 32 then 2 ^ 32 - 1
  else 2 ^ 32 - 2 ^ (32 - prefixLen)

/-- An IPv6 network (ipnet `Ipv6Net`): address as a u128 plus prefix length. -/
structure Ipv6Net where
  addr : Nat
  prefixLen : Nat
deriving DecidableEq, Repr

/-- `Reservation` in src/lib.rs. -/
structure Reservation where
  ipv4 : Nat
  ipv6_na : Nat
  ipv6_pd : Ipv6Net
  mac : Option Mac
  duid : Option Duid
  option82 : Option Option82
  option1837 : Option Option1837
deriving DecidableEq, Repr

/-- `V4Key` in src/lib.rs. -/
inductive V4Key where
  | Mac (m : Mac)
  | Option82 (o : Option82)
deriving DecidableEq, Repr

/-- `Reservation::v4_key` in src/lib.rs: MAC first, else Option82. -/
def Reservation.v4_key (r : Reservation) : Option V4Key :=
  (r.mac.map V4Key.Mac).or (r.option82.map V4Key.Option82)

/-! ## Reservation index (src/reservationdb.rs) -/

/-- `ReservationKey` in src/reservationdb.rs (three variants in that file). -/
inductive ReservationKey where
  | Mac (m : Mac)
  | Duid (d : Duid)
  | Opt82 (o : Option82)
deriving DecidableEq, Repr

/-- `ReservationDb` in src/reservationdb.rs: one map from tagged keys to
shared reservation handles.  Modelled as an association list where newer
entries shadow older ones, matching DashMap insert (last-writer-wins). -/
structure ReservationDb where
  inner : List (ReservationKey × Reservation)
deriving DecidableEq, Repr

def ReservationDb.new : ReservationDb := ⟨[]⟩

def dbLookup (db : ReservationDb) (k : ReservationKey) : Option Reservation :=
  (db.inner.find? (fun p => p.1 = k)).map (·.2)

/-- `ReservationDb::insert`: index the reservation under each present key. -/
def ReservationDb.insert (db : ReservationDb) (r : Reservation) : ReservationDb :=
  let db1 : ReservationDb :=
    match r.mac with
    | some m => ⟨(ReservationKey.Mac m, r) :: db.inner⟩
    | none => db
  let db2 : ReservationDb :=
    match r.duid with
    | some d => ⟨(ReservationKey.Duid d, r) :: db1.inner⟩
    | none => db1
  match r.option82 with
  | some o => ⟨(ReservationKey.Opt82 o, r) :: db2.inner⟩
  | none => db2

/-- `ReservationDb::load_reservations`. -/
def ReservationDb.load_reservations (db : ReservationDb) (rs : List Reservation) :
    ReservationDb :=
  rs.foldl ReservationDb.insert db

def ReservationDb.by_mac (db : ReservationDb) (m : Mac) : Option Reservation :=
  dbLookup db (ReservationKey.Mac m)

def ReservationDb.by_duid (db : ReservationDb) (d : Duid) : Option Reservation :=
  dbLookup db (ReservationKey.Duid d)

def ReservationDb.by_opt82 (db : ReservationDb) (o : Option82) : Option Reservation :=
  dbLookup db (ReservationKey.Opt82 o)

/-! ## Lease cache (src/leasedb.rs) -/

/-- `LeaseV4` in src/lib.rs.  Instants are Nat clock values. -/
structure LeaseV4 where
  first_leased : Nat
  last_leased : Nat
  valid : Nat
  mac : Mac
  option82 : Option Option82
deriving DecidableEq, Repr

/-- `Opt82Entry` in src/leasedb.rs. -/
structure Opt82Entry where
  opt82 : Option82
  last_seen : Nat
deriving DecidableEq, Repr

/-- `LeaseDb` in src/leasedb.rs (the parts the v4 path touches).  The two
DashMaps are association lists, first hit wins. -/
structure LeaseDb where
  v4 : List (Reservation × LeaseV4)
  mac_to_opt82 : List (Mac × Opt82Entry)
deriving DecidableEq, Repr

def LeaseDb.new : LeaseDb := ⟨[], []⟩

/-- Update the first entry at a key in an association list, keeping the
rest untouched (DashMap `entry(..).and_modify(..)`). -/
def modifyAt {α β : Type} [DecidableEq α] (l : List (α × β)) (k : α) (f : β → β) :
    List (α × β) :=
  match l with
  | [] => []
  | (k0, v) :: rest =>
      if k0 = k then (k0, f v) :: rest else (k0, v) :: modifyAt rest k f

def assocHas {α β : Type} [DecidableEq α] (l : List (α × β)) (k : α) : Bool :=
  l.any (fun p => p.1 = k)

def assocGet {α β : Type} [DecidableEq α] (l : List (α × β)) (k : α) : Option β :=
  (l.find? (fun p => p.1 = k)).map (·.2)

/-- `LeaseDb::insert_mac_option82_binding`: refresh `last_seen` when the MAC
is already bound, else insert a fresh entry. -/
def LeaseDb.insert_mac_option82_binding (db : LeaseDb) (now : Nat) (mac : Mac)
    (opt : Option82) : LeaseDb :=
  if assocHas db.mac_to_opt82 mac then
    let touched := modifyAt db.mac_to_opt82 mac (fun e => { e with last_seen := now })
    { db with mac_to_opt82 := touched }
  else
    { db with mac_to_opt82 := (mac, ⟨opt, now⟩) :: db.mac_to_opt82 }

/-- `LeaseDb::lease_v4`: first record the MAC→Option82 binding when an
Option82 value is supplied, then touch or insert the v4 lease. -/
def LeaseDb.lease_v4 (db : LeaseDb) (now : Nat) (reservation : Reservation)
    (mac : Mac) (option82 : Option Option82) (valid : Nat) : LeaseDb :=
  let db :=
    match option82 with
    | some opt => db.insert_mac_option82_binding now mac opt
    | none => db
  if assocHas db.v4 reservation then
    let touched := modifyAt db.v4 reservation (fun e => { e with last_leased := now })
    { db with v4 := touched }
  else
    { db with v4 := (reservation, ⟨now, now, valid, mac, option82⟩) :: db.v4 }

/-- `LeaseDb::get_opt82_by_mac`. -/
def LeaseDb.get_opt82_by_mac (db : LeaseDb) (mac : Mac) : Option Option82 :=
  (assocGet db.mac_to_opt82 mac).map (·.opt82)

/-! ## Option 82 extractors (src/extractors.rs) -/

/-- A named Option82 extractor (`NamedOption82Extractor`). -/
abbrev NamedOption82Extractor := String × (Option82 → Option Option82)

/-- `remote_only` in src/extractors.rs. -/
def remote_only (opt : Option82) : Option Option82 :=
  opt.remote.map (fun remote => ⟨none, some remote, none⟩)

/-! ## DHCPv4 messages (dhcproto v4 as used by src/v4) -/

inductive V4Opcode where
  | BootRequest
  | BootReply
  | Unknown (n : Nat)
deriving DecidableEq, Repr

inductive V4MessageType where
  | Discover
  | Offer
  | Request
  | Decline
  | Ack
  | Nak
  | Release
  | Inform
  | Other (n : Nat)
deriving DecidableEq, Repr

/-- The relay-agent option as the v4 resolver reads it: the three subfields
already projected to optional strings (`RelayAgentInformationExt` plus the
UTF-8 conversion in `find_reservation_by_relay_info`). -/
structure RelayAgentInformation where
  circuit_id : Option String
  remote_id : Option String
  subscriber_id : Option String
deriving DecidableEq, Repr

/-- The dhcproto v4 options the handlers read or write. -/
inductive V4Opt where
  | messageType (mt : V4MessageType)
  | serverIdentifier (ip : Nat)
  | subnetMask (ip : Nat)
  | router (ips : List Nat)
  | domainNameServer (ips : List Nat)
  | addressLeaseTime (t : Nat)
  | renewal (t : Nat)
  | rebinding (t : Nat)
  | requestedIpAddress (ip : Nat)
  | relayAgentInformation (relay : RelayAgentInformation)
  | optEnd
deriving DecidableEq, Repr

/-- The dhcproto option code of a v4 option (options live in a map keyed by
this code). -/
def V4Opt.code : V4Opt → Nat
  | .messageType _ => 53
  | .serverIdentifier _ => 54
  | .subnetMask _ => 1
  | .router _ => 3
  | .domainNameServer _ => 6
  | .addressLeaseTime _ => 51
  | .renewal _ => 58
  | .rebinding _ => 59
  | .requestedIpAddress _ => 50
  | .relayAgentInformation _ => 82
  | .optEnd => 255

/-- dhcproto v4 `DhcpOptions::insert`: a HashMap keyed by option code, so an
insert replaces any option of the same code. -/
def v4OptsInsert (opts : List V4Opt) (o : V4Opt) : List V4Opt :=
  if opts.any (fun x => x.code = o.code) then
    opts.map (fun x => if x.code = o.code then o else x)
  else
    opts ++ [o]

/-- Lookup of the option with a given code. -/
def v4OptsGet (opts : List V4Opt) (code : Nat) : Option V4Opt :=
  opts.find? (fun x => x.code = code)

/-- dhcproto `v4::Message` (the fields the handlers touch). -/
structure V4Message where
  opcode : V4Opcode
  xid : Nat
  secs : Nat
  flags : Nat
  ciaddr : Nat
  yiaddr : Nat
  siaddr : Nat
  giaddr : Nat
  chaddr : List Nat
  sname : String
  opts : List V4Opt
deriving DecidableEq, Repr

/-- `Flags::broadcast`: the top bit of the u16 flags field. -/
def flagsBroadcast (f : Nat) : Bool := f.testBit 15

/-- `Flags::set_broadcast`. -/
def flagsSetBroadcast (f : Nat) : Nat := f ||| 2 ^ 15

/-- `ShadowMessageExtV4::message_type` (src/v4/extensions.rs). -/
def V4Message.message_type (m : V4Message) : Option V4MessageType :=
  m.opts.findSome? (fun o => match o with
    | .messageType mt => some mt
    | _ => none)

/-- `ShadowMessageExtV4::server_id`. -/
def V4Message.server_id (m : V4Message) : Option Nat :=
  m.opts.findSome? (fun o => match o with
    | .serverIdentifier ip => some ip
    | _ => none)

/-- `ShadowMessageExtV4::requested_ip_addr`. -/
def V4Message.requested_ip_addr (m : V4Message) : Option Nat :=
  m.opts.findSome? (fun o => match o with
    | .requestedIpAddress ip => some ip
    | _ => none)

/-- `ShadowMessageExtV4::relay_agent_information`. -/
def V4Message.relay_agent_information (m : V4Message) : Option RelayAgentInformation :=
  m.opts.findSome? (fun o => match o with
    | .relayAgentInformation r => some r
    | _ => none)

/-! ## Config (src/config.rs, the fields the handlers read) -/

structure Config where
  v4_server_id : Nat
  v6_server_id : Duid
  dns_v4 : List Nat
  subnets_v4 : List V4Subnet
  option82_extractors : List NamedOption82Extractor

/-! ## v4 reservation resolution (src/v4/reservation.rs) -/

/-- The match-method tag (`ReservationMatch`), reduced to what the v4
handlers branch on for observability. -/
inductive ReservationMatch where
  | mac
  | option82 (extractorName : String)
  | duid
  | option1837 (extractorName : String)
deriving DecidableEq, Repr

namespace V4

/-- `find_reservation_by_relay_info` in src/v4/reservation.rs: build the
Option82 from the relay subfields, then try each extractor in order. -/
def find_reservation_by_relay_info (reservations : ReservationDb)
    (extractors : List NamedOption82Extractor) (relay : RelayAgentInformation) :
    Option (Reservation × ReservationMatch) :=
  let option : Option82 := ⟨relay.circuit_id, relay.remote_id, relay.subscriber_id⟩
  extractors.findSome? (fun p =>
    (p.2 option).bind (fun extracted_opt =>
      (reservations.by_opt82 extracted_opt).map
        (fun res => (res, ReservationMatch.option82 p.1))))

/-- `find_reservation` in src/v4/reservation.rs: MAC first, then Option 82
extractors. -/
def find_reservation (reservations : ReservationDb)
    (extractors : List NamedOption82Extractor) (mac_addr : Mac)
    (relay : Option RelayAgentInformation) :
    Option (Reservation × ReservationMatch) :=
  match reservations.by_mac mac_addr with
  | some res => some (res, ReservationMatch.mac)
  | none =>
      relay.bind (fun relay_info =>
        find_reservation_by_relay_info reservations extractors relay_info)

/-! ## v4 handlers (src/v4/handlers.rs) -/

def ADDRESS_LEASE_TIME : Nat := 3600
def RENEWAL_TIME : Nat := ADDRESS_LEASE_TIME / 2
def REBINDING_TIME : Nat := ADDRESS_LEASE_TIME * 7 / 8

inductive NoResponse where
  | NoReservation
  | NoValidMac
  | NoServerSubnet
  | Discarded
  | WrongServerId
  | NoMessageType
deriving DecidableEq, Repr

inductive DhcpV4Response where
  | Message (message : V4Message) (reservation : Option Reservation)
      (reservation_match : Option ReservationMatch)
  | NoResponse (reason : NoResponse)
deriving DecidableEq, Repr

/-- `v4::Message::new_with_id` followed by the common header set-up both
handlers perform (BootReply, secs 0, flags preserved, sname). -/
def replyHeader (msg : V4Message) (yiaddr : Nat) : V4Message :=
  { opcode := V4Opcode.BootReply
    xid := msg.xid
    secs := 0
    flags := msg.flags
    ciaddr := 0
    yiaddr := yiaddr
    siaddr := 0
    giaddr := msg.giaddr
    chaddr := msg.chaddr
    sname := "dhcp.shadowinter.net"
    opts := [] }

/-- Find the configured subnet containing an address, returning gateway and
`subnet.net.netmask()` exactly as both handlers do. -/
def findSubnet (config : Config) (ip : Nat) : Option (Nat × Nat) :=
  (config.subnets_v4.find? (fun subnet => subnet.net.contains ip)).map
    (fun subnet => (subnet.gateway, subnet.net.netmask))

/-- `handle_discover` in src/v4/handlers.rs. -/
def handle_discover (reservations : ReservationDb) (config : Config)
    (msg : V4Message) : DhcpV4Response :=
  match macAddr6TryFrom msg.chaddr with
  | none => .NoResponse .NoValidMac
  | some mac_addr =>
    match find_reservation reservations config.option82_extractors mac_addr
        msg.relay_agent_information with
    | none => .NoResponse .NoReservation
    | some (reservation, match_info) =>
      match findSubnet config reservation.ipv4 with
      | none => .NoResponse .NoServerSubnet
      | some (gateway, subnet_mask) =>
        let reply := replyHeader msg reservation.ipv4
        let opts := v4OptsInsert (v4OptsInsert (v4OptsInsert (v4OptsInsert
          (v4OptsInsert (v4OptsInsert (v4OptsInsert (v4OptsInsert
            (v4OptsInsert reply.opts
              (.messageType .Offer))
              (.serverIdentifier config.v4_server_id))
              (.subnetMask subnet_mask))
              (.router [gateway]))
              (.domainNameServer config.dns_v4))
              (.addressLeaseTime ADDRESS_LEASE_TIME))
              (.renewal RENEWAL_TIME))
              (.rebinding REBINDING_TIME))
              .optEnd
        .Message { reply with opts := opts } (some reservation) (some match_info)

/-- The variant selection of `handle_request` (src/v4/handlers.rs lines
262-289), the match on `(server_id option, ciaddr, requested_ip option)`:
`none` is the SELECTING wrong-server-id early return, `some none` the
unrecognized-variant early return, and `some (some ip)` the client's
requested address of a recognized variant. -/
def classifyRequest (config : Config) (msg : V4Message) : Option (Option Nat) :=
  match msg.server_id, msg.ciaddr, msg.requested_ip_addr with
  | some server_id, 0, some requested_ip =>
      if server_id ≠ config.v4_server_id then none
      else some (some requested_ip)
  | none, 0, some requested_ip => some (some requested_ip)
  | none, ciaddr, none =>
      if ciaddr ≠ 0 then some (some ciaddr) else some none
  | _, _, _ => some none

/-- `handle_request` in src/v4/handlers.rs.  The lease-cache side effect is
made explicit: the result pairs the response with the updated `LeaseDb`. -/
def handle_request (reservations : ReservationDb) (leases : LeaseDb)
    (config : Config) (now : Nat) (msg : V4Message) :
    DhcpV4Response × LeaseDb :=
  match macAddr6TryFrom msg.chaddr with
  | none => (.NoResponse .NoValidMac, leases)
  | some mac_addr =>
    match find_reservation reservations config.option82_extractors mac_addr
        msg.relay_agent_information with
    | none => (.NoResponse .NoReservation, leases)
    | some (reservation, match_info) =>
      match findSubnet config reservation.ipv4 with
      | none => (.NoResponse .NoServerSubnet, leases)
      | some (gateway, subnet_mask) =>
        let reply := replyHeader msg reservation.ipv4
        match classifyRequest config msg with
        | none => (.NoResponse .WrongServerId, leases)
        | some none => (.NoResponse .Discarded, leases)
        | some (some client_requested_ip) =>
          if client_requested_ip = reservation.ipv4 then
            let opts := v4OptsInsert (v4OptsInsert (v4OptsInsert (v4OptsInsert
              (v4OptsInsert (v4OptsInsert (v4OptsInsert (v4OptsInsert
                (v4OptsInsert reply.opts
                  (.messageType .Ack))
                  (.serverIdentifier config.v4_server_id))
                  (.subnetMask subnet_mask))
                  (.router [gateway]))
                  (.domainNameServer config.dns_v4))
                  (.addressLeaseTime ADDRESS_LEASE_TIME))
                  (.renewal RENEWAL_TIME))
                  (.rebinding REBINDING_TIME))
                  .optEnd
            let opt82 : Option Option82 :=
              match reservation.v4_key with
              | some (V4Key.Option82 opt) => some opt
              | _ => none
            let leases := leases.lease_v4 now reservation mac_addr opt82
              ADDRESS_LEASE_TIME
            (.Message { reply with opts := opts } (some reservation)
              (some match_info), leases)
          else
            let reply := { reply with yiaddr := 0 }
            let reply :=
              if msg.giaddr ≠ 0 then
                { reply with flags := flagsSetBroadcast reply.flags }
              else reply
            let opts := v4OptsInsert (v4OptsInsert (v4OptsInsert reply.opts
              (.messageType .Nak))
              (.serverIdentifier config.v4_server_id))
              .optEnd
            (.Message { reply with opts := opts } (some reservation)
              (some match_info), leases)

end V4

/-! ## DHCPv6 messages (dhcproto v6 as used by src/v6) -/

inductive V6MessageType where
  | Solicit
  | Advertise
  | Request
  | Renew
  | Rebind
  | Reply
  | Other (n : Nat)
deriving DecidableEq, Repr

inductive V6Status where
  | Success
  | NoBinding
  | Other (n : Nat)
deriving DecidableEq, Repr

/-- The dhcproto v6 options the handlers read or write.  `iana`/`iapd` carry
the `IANA`/`IAPD` fields (id, t1, t2, nested options); `iaaddr`/`iapfx`
carry the `IAAddr`/`IAPrefix` fields.  dhcproto v6 options are a list that
may hold several options of one code. -/
inductive V6Opt where
  | clientId (bytes : List Nat)
  | serverId (bytes : List Nat)
  | rapidCommit
  | preference (n : Nat)
  | iana (id t1 t2 : Nat) (opts : List V6Opt)
  | iapd (id t1 t2 : Nat) (opts : List V6Opt)
  | iaaddr (addr preferred_life valid_life : Nat) (opts : List V6Opt)
  | iapfx (preferred_lifetime valid_lifetime prefixLen prefixIp : Nat)
      (opts : List V6Opt)
  | statusCode (status : V6Status) (message : String)
  | otherOpt (code : Nat)

/-- dhcproto `v6::Message` (the fields the handlers touch). -/
structure V6Message where
  msg_type : V6MessageType
  xid : Nat
  opts : List V6Opt

/-- `ShadowMessageExtV6::client_id` (src/v6/extensions.rs): first ClientId. -/
def V6Message.client_id (m : V6Message) : Option (List Nat) :=
  m.opts.findSome? (fun o => match o with
    | .clientId b => some b
    | _ => none)

/-- `ShadowMessageExtV6::server_id`: first ServerId. -/
def V6Message.server_id (m : V6Message) : Option (List Nat) :=
  m.opts.findSome? (fun o => match o with
    | .serverId b => some b
    | _ => none)

/-- `ShadowMessageExtV6::rapid_commit`. -/
def V6Message.rapid_commit (m : V6Message) : Bool :=
  m.opts.any (fun o => match o with
    | .rapidCommit => true
    | _ => false)

/-- `ShadowMessageExtV6::ia_na`: the first IA_NA option, as its fields. -/
def V6Message.ia_na (m : V6Message) : Option (Nat × Nat × Nat × List V6Opt) :=
  m.opts.findSome? (fun o => match o with
    | .iana id t1 t2 sub => some (id, t1, t2, sub)
    | _ => none)

/-- `ShadowMessageExtV6::ia_pd`: the first IA_PD option, as its fields. -/
def V6Message.ia_pd (m : V6Message) : Option (Nat × Nat × Nat × List V6Opt) :=
  m.opts.findSome? (fun o => match o with
    | .iapd id t1 t2 sub => some (id, t1, t2, sub)
    | _ => none)

/-! ## v6 lease recording (src/leasedb.rs) -/

/-- `LeaseV6` in src/lib.rs. -/
structure LeaseV6 where
  first_leased : Nat
  last_leased : Nat
  valid : Nat
  duid : Duid
  mac : Option Mac
deriving DecidableEq, Repr

/-- The v6 half of `LeaseDb`. -/
structure LeaseDbV6 where
  v6 : List (Reservation × LeaseV6)
deriving DecidableEq, Repr

/-- `LeaseDb::leased_new_v6`: plain insert (replaces an existing lease). -/
def LeaseDbV6.leased_new_v6 (db : LeaseDbV6) (reservation : Reservation)
    (lease : LeaseV6) : LeaseDbV6 :=
  ⟨(reservation, lease) :: db.v6.filter (fun p => p.1 ≠ reservation)⟩

namespace V6

def VALID_LIFETIME : Nat := 7200
def PREFERRED_LIFETIME : Nat := VALID_LIFETIME / 2
def RENEWAL_TIME : Nat := PREFERRED_LIFETIME / 2
def REBINDING_TIME : Nat := PREFERRED_LIFETIME * 4 / 5

inductive NoResponseReason where
  | NoClientId
  | UnexpectedServerId
  | WrongServerId
  | NoServerId
  | NoReservation
  | Discarded
deriving DecidableEq, Repr

inductive DhcpV6Response where
  | Message (message : V6Message) (reservation : Option Reservation)
      (reservation_match : Option ReservationMatch)
  | NoResponse (reason : NoResponseReason)

/-- The result of the `find_reservation` call the v6 handlers make
(src/v6/reservation.rs): the reservation database, lease cache, configured
extractors and the relay message are fixed at the call site, so the
resolver is embedded as a function of the client DUID. -/
abbrev Resolver := Duid → Option (Reservation × ReservationMatch)

/-- The fresh `LeaseV6` every v6 handler builds before recording. -/
def freshLeaseV6 (now : Nat) (client_id : Duid) : LeaseV6 :=
  ⟨now, now, VALID_LIFETIME, client_id, none⟩

/-- The reply IA_PD option built from a reservation (shared by the
solicit/request/renew/rebind found-reservation paths). -/
def reservedIapd (iapdId : Nat) (reservation : Reservation) : V6Opt :=
  .iapd iapdId RENEWAL_TIME REBINDING_TIME
    [.iapfx PREFERRED_LIFETIME VALID_LIFETIME reservation.ipv6_pd.prefixLen
      reservation.ipv6_pd.addr []]

/-- The reply IA_NA option built from a reservation. -/
def reservedIana (ianaId : Nat) (reservation : Reservation) : V6Opt :=
  .iana ianaId RENEWAL_TIME REBINDING_TIME
    [.iaaddr reservation.ipv6_na PREFERRED_LIFETIME VALID_LIFETIME []]

/-- The IA body built by `handle_solicit` and the v6 `handle_request`: the
reply IA_PD (when the request carried one), then the reply IA_NA, each
echoing the request IAID. -/
def iapdThenIanaOpts (msg : V6Message) (reservation : Reservation) :
    List V6Opt :=
  let opts1 : List V6Opt :=
    match msg.ia_pd with
    | some (id, _, _, _) => [reservedIapd id reservation]
    | none => []
  match msg.ia_na with
  | some (id, _, _, _) => opts1 ++ [reservedIana id reservation]
  | none => opts1

/-- `handle_solicit` in src/v6/handlers.rs. -/
def handle_solicit (config : Config) (resolver : Resolver) (leases : LeaseDbV6)
    (now : Nat) (msg : V6Message) : DhcpV6Response × LeaseDbV6 :=
  match msg.client_id with
  | none => (.NoResponse .NoClientId, leases)
  | some client_id =>
    if (msg.server_id).isSome then (.NoResponse .UnexpectedServerId, leases)
    else
      let msg_type := if msg.rapid_commit then V6MessageType.Reply
        else V6MessageType.Advertise
      match resolver client_id with
      | none => (.NoResponse .NoReservation, leases)
      | some (reservation, match_info) =>
        let leases := leases.leased_new_v6 reservation (freshLeaseV6 now client_id)
        let opts0 : List V6Opt :=
          if msg_type = V6MessageType.Reply then [.rapidCommit]
          else [.preference 255]
        let opts := opts0 ++ iapdThenIanaOpts msg reservation ++
          [.serverId config.v6_server_id, .clientId client_id]
        (.Message ⟨msg_type, msg.xid, opts⟩ (some reservation) (some match_info),
          leases)

/-- `handle_request` in src/v6/handlers.rs. -/
def handle_request (config : Config) (resolver : Resolver) (leases : LeaseDbV6)
    (now : Nat) (msg : V6Message) : DhcpV6Response × LeaseDbV6 :=
  match msg.client_id with
  | none => (.NoResponse .NoClientId, leases)
  | some client_id =>
    match msg.server_id with
    | some bytes =>
      if bytes = config.v6_server_id then
        match resolver client_id with
        | none => (.NoResponse .NoReservation, leases)
        | some (reservation, match_info) =>
          let leases := leases.leased_new_v6 reservation (freshLeaseV6 now client_id)
          let opts := iapdThenIanaOpts msg reservation ++
            [.serverId config.v6_server_id, .clientId client_id]
          (.Message ⟨V6MessageType.Reply, msg.xid, opts⟩ (some reservation)
            (some match_info), leases)
      else (.NoResponse .WrongServerId, leases)
    | none => (.NoResponse .NoServerId, leases)

/-- The StatusCode option both no-binding paths insert inside each IA. -/
def noBindingStatus : V6Opt :=
  .statusCode .NoBinding "No binding for this IA"

/-- Zero the lifetimes of every IAAddr among an IA_NA option's nested
options (the no-binding loop body for IANA). -/
def zeroIanaLifetimes (opts : List V6Opt) : List V6Opt :=
  opts.map (fun o => match o with
    | .iaaddr addr _ _ sub => .iaaddr addr 0 0 sub
    | x => x)

/-- Zero the lifetimes of every IAPrefix among an IA_PD option's nested
options (the no-binding loop body for IAPD). -/
def zeroIapdLifetimes (opts : List V6Opt) : List V6Opt :=
  opts.map (fun o => match o with
    | .iapfx _ _ len ip sub => .iapfx 0 0 len ip sub
    | x => x)

/-- The no-binding reply body shared by `handle_renew` and `handle_rebind`:
every IA_NA and IA_PD of the request reappears with zeroed lifetimes and a
NoBinding StatusCode inserted inside; other options are skipped. -/
def noBindingReplyOpts (opts : List V6Opt) : List V6Opt :=
  opts.filterMap (fun o => match o with
    | .iana id t1 t2 sub =>
        some (.iana id t1 t2 (zeroIanaLifetimes sub ++ [noBindingStatus]))
    | .iapd id t1 t2 sub =>
        some (.iapd id t1 t2 (zeroIapdLifetimes sub ++ [noBindingStatus]))
    | _ => none)

/-- The found-reservation reply body shared by `handle_renew` and
`handle_rebind`: an IA_NA echoing the request IAID when the request carried
one, then likewise an IA_PD. -/
def renewReplyOpts (msg : V6Message) (reservation : Reservation) : List V6Opt :=
  let opts1 : List V6Opt :=
    match msg.ia_na with
    | some (id, _, _, _) => [reservedIana id reservation]
    | none => []
  match msg.ia_pd with
  | some (id, _, _, _) => opts1 ++ [reservedIapd id reservation]
  | none => opts1

/-- `handle_renew` in src/v6/handlers.rs. -/
def handle_renew (config : Config) (resolver : Resolver) (leases : LeaseDbV6)
    (now : Nat) (msg : V6Message) : DhcpV6Response × LeaseDbV6 :=
  match msg.client_id with
  | none => (.NoResponse .NoClientId, leases)
  | some client_id =>
    match msg.server_id with
    | some bytes =>
      if bytes = config.v6_server_id then
        match resolver client_id with
        | some (reservation, match_info) =>
          let body := renewReplyOpts msg reservation
          let leases :=
            if body.length > 0 then
              leases.leased_new_v6 reservation (freshLeaseV6 now client_id)
            else leases
          let opts := body ++ [.serverId config.v6_server_id, .clientId client_id]
          (.Message ⟨V6MessageType.Reply, msg.xid, opts⟩ (some reservation)
            (some match_info), leases)
        | none =>
          let opts := noBindingReplyOpts msg.opts ++
            [.serverId config.v6_server_id, .clientId client_id]
          (.Message ⟨V6MessageType.Reply, msg.xid, opts⟩ none none, leases)
      else (.NoResponse .WrongServerId, leases)
    | none => (.NoResponse .NoServerId, leases)

/-- `handle_rebind` in src/v6/handlers.rs: like `handle_renew` but a present
ServerId is only logged, never compared against the server's identity. -/
def handle_rebind (config : Config) (resolver : Resolver) (leases : LeaseDbV6)
    (now : Nat) (msg : V6Message) : DhcpV6Response × LeaseDbV6 :=
  match msg.client_id with
  | none => (.NoResponse .NoClientId, leases)
  | some client_id =>
    match resolver client_id with
    | some (reservation, match_info) =>
      let body := renewReplyOpts msg reservation
      let leases :=
        if body.length > 0 then
          leases.leased_new_v6 reservation (freshLeaseV6 now client_id)
        else leases
      let opts := body ++ [.serverId config.v6_server_id, .clientId client_id]
      (.Message ⟨V6MessageType.Reply, msg.xid, opts⟩ (some reservation)
        (some match_info), leases)
    | none =>
      let opts := noBindingReplyOpts msg.opts ++
        [.serverId config.v6_server_id, .clientId client_id]
      (.Message ⟨V6MessageType.Reply, msg.xid, opts⟩ none none, leases)

/-- `handle_message` in src/v6/handlers.rs. -/
def handle_message (config : Config) (resolver : Resolver) (leases : LeaseDbV6)
    (now : Nat) (msg : V6Message) : DhcpV6Response × LeaseDbV6 :=
  match msg.msg_type with
  | .Solicit => handle_solicit config resolver leases now msg
  | .Advertise => (.NoResponse .Discarded, leases)
  | .Request => handle_request config resolver leases now msg
  | .Renew => handle_renew config resolver leases now msg
  | .Rebind => handle_rebind config resolver leases now msg
  | _ => (.NoResponse .Discarded, leases)

end V6

/-! ## Worker recv-error backoff (src/v4/worker.rs, src/v6/worker.rs) -/

/-- The `std::io::ErrorKind` cases the workers distinguish. -/
inductive RecvErrorKind where
  | ConnectionReset
  | Interrupted
  | OtherError (tag : Nat)
deriving DecidableEq, Repr

def U32_MAX : Nat := 2 ^ 32 - 1
def U64_MAX : Nat := 2 ^ 64 - 1

/-- `u32::saturating_add 1`. -/
def satAddOne32 (n : Nat) : Nat := min (n + 1) U32_MAX

/-- `u64::saturating_pow`. -/
def satPow64 (b e : Nat) : Nat := min (b ^ e) U64_MAX

/-- `u64::saturating_mul`. -/
def satMul64 (a b : Nat) : Nat := min (a * b) U64_MAX

def MAX_BACKOFF_MS : Nat := 1000

/-- The v4 worker's recv-error branch (src/v4/worker.rs lines 39-59): given
the error kind and the current `error_count`, the new `error_count` and the
sleep in milliseconds, if any.  ConnectionReset and Interrupted are logged
and cause no sleep. -/
def v4RecvErrorStep (kind : RecvErrorKind) (error_count : Nat) :
    Nat × Option Nat :=
  match kind with
  | .ConnectionReset => (error_count, none)
  | .Interrupted => (error_count, none)
  | .OtherError _ =>
      let error_count := satAddOne32 error_count
      let backoff_ms := min (satMul64 10 (satPow64 2 error_count)) MAX_BACKOFF_MS
      (error_count, some backoff_ms)

/-- The v4 worker's successful-recv branch resets `error_count` to 0. -/
def v4RecvSuccessStep (_error_count : Nat) : Nat := 0

/-- The v6 worker's recv-error branch (src/v6/worker.rs lines 46-66),
textually the same logic as the v4 worker's. -/
def v6RecvErrorStep (kind : RecvErrorKind) (error_count : Nat) :
    Nat × Option Nat :=
  match kind with
  | .ConnectionReset => (error_count, none)
  | .Interrupted => (error_count, none)
  | .OtherError _ =>
      let error_count := satAddOne32 error_count
      let backoff_ms := min (satMul64 10 (satPow64 2 error_count)) MAX_BACKOFF_MS
      (error_count, some backoff_ms)

/-- The v6 worker's successful-recv branch resets `error_count` to 0. -/
def v6RecvSuccessStep (_error_count : Nat) : Nat := 0

/-- The v4 worker's `error_count` after k consecutive unexpected recv
errors, starting from a fresh (or just-reset) counter. -/
def v4ErrorCountAfter : Nat → Nat
  | 0 => 0
  | Nat.succ k => (v4RecvErrorStep (.OtherError 0) (v4ErrorCountAfter k)).1

/-- The sleep issued on the k-th consecutive unexpected recv error of the
v4 worker, starting from a fresh (or just-reset) counter. -/
def v4BackoffAfter : Nat → Option Nat
  | 0 => none
  | Nat.succ k => (v4RecvErrorStep (.OtherError 0) (v4ErrorCountAfter k)).2

/-- The v6 worker's `error_count` after k consecutive unexpected recv
errors, starting from a fresh (or just-reset) counter. -/
def v6ErrorCountAfter : Nat → Nat
  | 0 => 0
  | Nat.succ k => (v6RecvErrorStep (.OtherError 0) (v6ErrorCountAfter k)).1

/-- The sleep issued on the k-th consecutive unexpected recv error of the
v6 worker, starting from a fresh (or just-reset) counter. -/
def v6BackoffAfter : Nat → Option Nat
  | 0 => none
  | Nat.succ k => (v6RecvErrorStep (.OtherError 0) (v6ErrorCountAfter k)).2

/-! ## The full four-key reservation index (claim C6)

The v6 resolver (src/v6/reservation.rs) and the eviction pass
(src/leasedb.rs) call `ReservationDb::by_opt1837` and
`ReservationDb::has_opt82`, but the copy of src/reservationdb.rs in the
tree is an earlier revision with only three key variants and without those
methods; the four-variant index itself is not in the tree.  It is therefore
modelled from the spec below. -/

/-- Modelled from the spec: the tagged key of the four-variant reservation
index, `{Mac | Duid | Opt82 | Opt1837}` (the revision of
src/reservationdb.rs with Option 18/37 support is missing from the tree;
only its callers are present). -/
inductive ReservationKeyFull where
  | Mac (m : Mac)
  | Duid (d : Duid)
  | Opt82 (o : Option82)
  | Opt1837 (o : Option1837)
deriving DecidableEq, Repr

/-- Modelled from the spec: the four-variant reservation index, a mapping
from tagged keys to shared reservation handles, last-writer-wins per key. -/
structure ReservationDbFull where
  inner : List (ReservationKeyFull × Reservation)
deriving DecidableEq, Repr

def dbFullLookup (db : ReservationDbFull) (k : ReservationKeyFull) :
    Option Reservation :=
  (db.inner.find? (fun p => p.1 = k)).map (·.2)

/-- Modelled from the spec: `insert(Reservation)` indexes the reservation
under each of its present keys, last-writer-wins per key. -/
def ReservationDbFull.insert (db : ReservationDbFull) (r : Reservation) :
    ReservationDbFull :=
  let db1 : ReservationDbFull :=
    match r.mac with
    | some m => ⟨(ReservationKeyFull.Mac m, r) :: db.inner⟩
    | none => db
  let db2 : ReservationDbFull :=
    match r.duid with
    | some d => ⟨(ReservationKeyFull.Duid d, r) :: db1.inner⟩
    | none => db1
  let db3 : ReservationDbFull :=
    match r.option82 with
    | some o => ⟨(ReservationKeyFull.Opt82 o, r) :: db2.inner⟩
    | none => db2
  match r.option1837 with
  | some o => ⟨(ReservationKeyFull.Opt1837 o, r) :: db3.inner⟩
  | none => db3

/-- Modelled from the spec: `load_snapshot([Reservation])`. -/
def ReservationDbFull.load_snapshot (db : ReservationDbFull)
    (rs : List Reservation) : ReservationDbFull :=
  rs.foldl ReservationDbFull.insert db

def ReservationDbFull.by_mac (db : ReservationDbFull) (m : Mac) :
    Option Reservation :=
  dbFullLookup db (ReservationKeyFull.Mac m)

def ReservationDbFull.by_duid (db : ReservationDbFull) (d : Duid) :
    Option Reservation :=
  dbFullLookup db (ReservationKeyFull.Duid d)

def ReservationDbFull.by_opt82 (db : ReservationDbFull) (o : Option82) :
    Option Reservation :=
  dbFullLookup db (ReservationKeyFull.Opt82 o)

def ReservationDbFull.by_opt1837 (db : ReservationDbFull) (o : Option1837) :
    Option Reservation :=
  dbFullLookup db (ReservationKeyFull.Opt1837 o)

/-! ## Association-list lemmas -/

theorem assocGet_modifyAt {α β : Type} [DecidableEq α] (l : List (α × β))
    (k : α) (f : β → β) :
    assocGet (modifyAt l k f) k = (assocGet l k).map f := by
  induction l with
  | nil => rfl
  | cons p rest ih =>
    rcases p with ⟨k0, v⟩
    by_cases h : k0 = k
    · subst h
      simp [modifyAt, assocGet, List.find?]
    · simpa [modifyAt, assocGet, List.find?, h] using ih

theorem assocGet_modifyAt_ne {α β : Type} [DecidableEq α] (l : List (α × β))
    (k k2 : α) (f : β → β) (h : k2 ≠ k) :
    assocGet (modifyAt l k f) k2 = assocGet l k2 := by
  induction l with
  | nil => rfl
  | cons p rest ih =>
    rcases p with ⟨k0, v⟩
    by_cases h0 : k0 = k
    · subst h0
      simp [modifyAt, assocGet, List.find?, Ne.symm h]
    · by_cases h2 : k0 = k2
      · subst h2
        simp [modifyAt, assocGet, List.find?, h0]
      · simpa [modifyAt, assocGet, List.find?, h0, h2] using ih

theorem assocGet_cons_ne {α β : Type} [DecidableEq α] (rest : List (α × β))
    (k0 k : α) (v0 : β) (h0 : k0 ≠ k) :
    assocGet ((k0, v0) :: rest) k = assocGet rest k := by
  unfold assocGet
  rw [List.find?_cons_of_neg]
  simpa using h0

theorem assocHas_of_get {α β : Type} [DecidableEq α] (l : List (α × β))
    (k : α) (v : β) (h : assocGet l k = some v) : assocHas l k = true := by
  induction l with
  | nil => simp [assocGet] at h
  | cons p rest ih =>
    rcases p with ⟨k0, v0⟩
    by_cases h0 : k0 = k
    · simp [assocHas, h0]
    · rw [assocGet_cons_ne rest k0 k v0 h0] at h
      simpa [assocHas, h0] using ih h

/-- The binding insert never touches the v4 lease map. -/
theorem insert_binding_v4_eq (db : LeaseDb) (now : Nat) (mac : Mac)
    (opt : Option82) :
    (db.insert_mac_option82_binding now mac opt).v4 = db.v4 := by
  rw [LeaseDb.insert_mac_option82_binding]
  split <;> rfl

/-- The v4 component of `lease_v4` when the reservation already has a
lease: only `last_leased` of that entry is modified. -/
theorem lease_v4_v4_of_has (db : LeaseDb) (now : Nat) (res : Reservation)
    (mac : Mac) (option82 : Option Option82) (valid : Nat)
    (h : assocHas db.v4 res = true) :
    (db.lease_v4 now res mac option82 valid).v4 =
      modifyAt db.v4 res (fun e => { e with last_leased := now }) := by
  cases option82 with
  | none => simp [LeaseDb.lease_v4, h]
  | some opt => simp [LeaseDb.lease_v4, insert_binding_v4_eq, h]

/-- The binding component of `lease_v4` with an Option82 value supplied. -/
theorem lease_v4_opt82_some (db : LeaseDb) (now : Nat) (res : Reservation)
    (mac : Mac) (opt : Option82) (valid : Nat) :
    (db.lease_v4 now res mac (some opt) valid).mac_to_opt82 =
      (db.insert_mac_option82_binding now mac opt).mac_to_opt82 := by
  rw [LeaseDb.lease_v4]
  simp only
  split <;> rfl

/-- The binding component of `lease_v4` without an Option82 value. -/
theorem lease_v4_opt82_none (db : LeaseDb) (now : Nat) (res : Reservation)
    (mac : Mac) (valid : Nat) :
    (db.lease_v4 now res mac none valid).mac_to_opt82 = db.mac_to_opt82 := by
  rw [LeaseDb.lease_v4]
  simp only
  split <;> rfl

/-! ## Claim C10 -/

/-- C10: when `lease_v4` runs for a reservation that already has a v4
lease, only that lease's `last_leased` field changes — `first_leased`,
`valid`, `mac` and `option82` keep their previous values even when the call
supplies different ones — and leases of other reservations are untouched;
likewise `insert_mac_option82_binding` for an already-bound MAC updates
only `last_seen` and keeps the stored Option82 tuple. -/
theorem C10_lease_v4_existing_entry_frame :
    (∀ (db : LeaseDb) (now : Nat) (res : Reservation) (mac : Mac)
        (option82 : Option Option82) (valid : Nat) (lease : LeaseV4),
      assocGet db.v4 res = some lease →
      assocGet (db.lease_v4 now res mac option82 valid).v4 res =
        some { lease with last_leased := now })
  ∧ (∀ (db : LeaseDb) (now : Nat) (res res2 : Reservation) (mac : Mac)
        (option82 : Option Option82) (valid : Nat) (lease : LeaseV4),
      assocGet db.v4 res = some lease → res2 ≠ res →
      assocGet (db.lease_v4 now res mac option82 valid).v4 res2 =
        assocGet db.v4 res2)
  ∧ (∀ (db : LeaseDb) (now : Nat) (mac : Mac) (opt : Option82)
        (e : Opt82Entry),
      assocGet db.mac_to_opt82 mac = some e →
      assocGet (db.insert_mac_option82_binding now mac opt).mac_to_opt82 mac =
        some { e with last_seen := now }) := by
  refine ⟨?_, ?_, ?_⟩
  · intro db now res mac option82 valid lease h
    rw [lease_v4_v4_of_has db now res mac option82 valid
      (assocHas_of_get db.v4 res lease h)]
    rw [assocGet_modifyAt, h]
    rfl
  · intro db now res res2 mac option82 valid lease h hne
    rw [lease_v4_v4_of_has db now res mac option82 valid
      (assocHas_of_get db.v4 res lease h)]
    exact assocGet_modifyAt_ne db.v4 res res2 _ hne
  · intro db now mac opt e h
    rw [LeaseDb.insert_mac_option82_binding]
    rw [if_pos]
    · simp only
      rw [assocGet_modifyAt, h]
      rfl
    · exact_mod_cast assocHas_of_get db.mac_to_opt82 mac e h

def C10lease : LeaseV4 := ⟨100, 100, 3600, [1, 2, 3, 4, 5, 6], none⟩

def C10res : Reservation :=
  ⟨11, 22, ⟨33, 56⟩, some [1, 2, 3, 4, 5, 6], none, none, none⟩

def C10res2 : Reservation :=
  ⟨12, 23, ⟨34, 56⟩, some [6, 5, 4, 3, 2, 1], none, none, none⟩

def C10entry : Opt82Entry := ⟨⟨none, some "r0", none⟩, 100⟩

def C10db : LeaseDb :=
  ⟨[(C10res, C10lease), (C10res2, C10lease)], [([9, 9, 9, 9, 9, 9], C10entry)]⟩

/-- Witness for C10 at a concrete lease database: a second `lease_v4` with
a different mac, Option82 and validity only advances `last_leased`, leaves
the other reservation's lease alone, and a re-binding only advances
`last_seen`. -/
theorem C10_lease_v4_existing_entry_frame_witness :
    assocGet (C10db.lease_v4 500 C10res [7, 7, 7, 7, 7, 7]
        (some ⟨none, some "r1", none⟩) 7200).v4 C10res =
      some { C10lease with last_leased := 500 }
  ∧ assocGet (C10db.lease_v4 500 C10res [7, 7, 7, 7, 7, 7]
        (some ⟨none, some "r1", none⟩) 7200).v4 C10res2 =
      assocGet C10db.v4 C10res2
  ∧ assocGet (C10db.insert_mac_option82_binding 500 [9, 9, 9, 9, 9, 9]
        ⟨none, some "r2", none⟩).mac_to_opt82 [9, 9, 9, 9, 9, 9] =
      some { C10entry with last_seen := 500 } :=
  ⟨C10_lease_v4_existing_entry_frame.1 C10db 500 C10res [7, 7, 7, 7, 7, 7]
      (some ⟨none, some "r1", none⟩) 7200 C10lease (by decide),
   C10_lease_v4_existing_entry_frame.2.1 C10db 500 C10res C10res2
      [7, 7, 7, 7, 7, 7] (some ⟨none, some "r1", none⟩) 7200 C10lease
      (by decide) (by decide),
   C10_lease_v4_existing_entry_frame.2.2 C10db 500 [9, 9, 9, 9, 9, 9]
      ⟨none, some "r2", none⟩ C10entry (by decide)⟩

/-! ## Claim C6 -/

/-- C6: the four-variant reservation index answers all four lookup modes:
after `insert`, a reservation carrying an option1837 key is found by
`by_opt1837` with that tuple, and likewise `by_mac`, `by_duid` and
`by_opt82` for the other key kinds, each returning the inserted
reservation. -/
theorem C6_index_answers_four_lookup_modes (db : ReservationDbFull)
    (r : Reservation) :
    (∀ o, r.option1837 = some o → (db.insert r).by_opt1837 o = some r)
  ∧ (∀ m, r.mac = some m → (db.insert r).by_mac m = some r)
  ∧ (∀ d, r.duid = some d → (db.insert r).by_duid d = some r)
  ∧ (∀ o, r.option82 = some o → (db.insert r).by_opt82 o = some r)
  ∧ (∀ o, r.option1837 = some o →
      (db.load_snapshot [r]).by_opt1837 o = some r) := by
  have h1837 : ∀ o, r.option1837 = some o →
      (db.insert r).by_opt1837 o = some r := by
    intro o ho
    rcases hm : r.mac with _ | m <;> rcases hd : r.duid with _ | d <;>
      rcases h82 : r.option82 with _ | o82 <;>
      simp [ReservationDbFull.insert, ReservationDbFull.by_opt1837,
        dbFullLookup, assocGet, hm, hd, h82, ho, List.find?]
  refine ⟨h1837, ?_, ?_, ?_, fun o ho => h1837 o ho⟩
  · intro m hm
    rcases hd : r.duid with _ | d <;> rcases h82 : r.option82 with _ | o82 <;>
      rcases h1837 : r.option1837 with _ | o18 <;>
      simp [ReservationDbFull.insert, ReservationDbFull.by_mac,
        dbFullLookup, assocGet, hm, hd, h82, h1837, List.find?]
  · intro d hd
    rcases hm : r.mac with _ | m <;> rcases h82 : r.option82 with _ | o82 <;>
      rcases h1837 : r.option1837 with _ | o18 <;>
      simp [ReservationDbFull.insert, ReservationDbFull.by_duid,
        dbFullLookup, assocGet, hm, hd, h82, h1837, List.find?]
  · intro o h82
    rcases hm : r.mac with _ | m <;> rcases hd : r.duid with _ | d <;>
      rcases h1837 : r.option1837 with _ | o18 <;>
      simp [ReservationDbFull.insert, ReservationDbFull.by_opt82,
        dbFullLookup, assocGet, hm, hd, h82, h1837, List.find?]

def C6res : Reservation :=
  ⟨167772161, 42, ⟨7, 56⟩, some [0, 17, 34, 51, 68, 85], some [1, 2, 3],
    some ⟨some "c1", some "r1", none⟩, some ⟨some "if1", some "r2", some 9⟩⟩

/-- Witness for C6: a reservation carrying all four keys is found by all
four lookup modes after insertion into the empty index. -/
theorem C6_index_answers_four_lookup_modes_witness :
    (ReservationDbFull.insert ⟨[]⟩ C6res).by_opt1837
        ⟨some "if1", some "r2", some 9⟩ = some C6res
  ∧ (ReservationDbFull.insert ⟨[]⟩ C6res).by_mac [0, 17, 34, 51, 68, 85] =
      some C6res
  ∧ (ReservationDbFull.insert ⟨[]⟩ C6res).by_duid [1, 2, 3] = some C6res
  ∧ (ReservationDbFull.insert ⟨[]⟩ C6res).by_opt82
      ⟨some "c1", some "r1", none⟩ = some C6res :=
  ⟨(C6_index_answers_four_lookup_modes ⟨[]⟩ C6res).1 _ rfl,
   (C6_index_answers_four_lookup_modes ⟨[]⟩ C6res).2.1 _ rfl,
   (C6_index_answers_four_lookup_modes ⟨[]⟩ C6res).2.2.1 _ rfl,
   (C6_index_answers_four_lookup_modes ⟨[]⟩ C6res).2.2.2.1 _ rfl⟩

/-! ## Claim C8 -/

theorem U32_MAX_eq : U32_MAX = 4294967295 := by norm_num [U32_MAX]

theorem U64_MAX_eq : U64_MAX = 18446744073709551615 := by norm_num [U64_MAX]

/-- The saturating arithmetic collapses: the sleep value for a given
counter value is `min (10 * 2 ^ count) 1000`. -/
theorem sleep_of_count (c : Nat) :
    min (satMul64 10 (satPow64 2 c)) MAX_BACKOFF_MS = min (10 * 2 ^ c) 1000 := by
  unfold satMul64 satPow64 MAX_BACKOFF_MS
  rw [U64_MAX_eq]
  generalize 2 ^ c = t
  omega

theorem v4ErrorCountAfter_eq (k : Nat) : v4ErrorCountAfter k = min k U32_MAX := by
  induction k with
  | zero => simp [v4ErrorCountAfter]
  | succ k ih =>
    rw [v4ErrorCountAfter, ih]
    unfold v4RecvErrorStep satAddOne32
    simp only [U32_MAX_eq]
    omega

theorem v4BackoffAfter_formula (k : Nat) (hk : 1 ≤ k) :
    v4BackoffAfter k = some (min (10 * 2 ^ (min k U32_MAX)) 1000) := by
  cases k with
  | zero => omega
  | succ k =>
    rw [v4BackoffAfter, v4ErrorCountAfter_eq]
    show some (min (satMul64 10 (satPow64 2 (satAddOne32 (min k U32_MAX))))
      MAX_BACKOFF_MS) = _
    rw [sleep_of_count]
    have hsat : satAddOne32 (min k U32_MAX) = min (k + 1) U32_MAX := by
      unfold satAddOne32
      rw [U32_MAX_eq]
      omega
    rw [hsat]

theorem v6RecvErrorStep_eq_v4 (kind : RecvErrorKind) (c : Nat) :
    v6RecvErrorStep kind c = v4RecvErrorStep kind c := by
  cases kind <;> rfl

theorem v6BackoffAfter_eq_v4 (k : Nat) : v6BackoffAfter k = v4BackoffAfter k := by
  have hc : ∀ n, v6ErrorCountAfter n = v4ErrorCountAfter n := by
    intro n
    induction n with
    | zero => rfl
    | succ n ih => rw [v6ErrorCountAfter, v4ErrorCountAfter, ih,
        v6RecvErrorStep_eq_v4]
  cases k with
  | zero => rfl
  | succ k => rw [v6BackoffAfter, v4BackoffAfter, hc, v6RecvErrorStep_eq_v4]

/-- Doubling under the cap. -/
theorem min_double_cap (x : Nat) :
    min (10 * 2 ^ (x + 1)) 1000 = min (2 * min (10 * 2 ^ x) 1000) 1000 := by
  have h : 10 * 2 ^ (x + 1) = 2 * (10 * 2 ^ x) := by ring
  rw [h]
  generalize 10 * 2 ^ x = q
  omega

/-- One more consecutive error doubles the capped sleep, including at the
point where the u32 counter saturates. -/
theorem backoff_min_succ (k : Nat) :
    min (10 * 2 ^ (min (k + 1) U32_MAX)) 1000 =
      min (2 * min (10 * 2 ^ (min k U32_MAX)) 1000) 1000 := by
  by_cases hcase : k + 1 ≤ U32_MAX
  · have h1 : min k U32_MAX = k :=
      Nat.min_eq_left (Nat.le_trans (Nat.le_succ k) hcase)
    have h2 : min (k + 1) U32_MAX = k + 1 := Nat.min_eq_left hcase
    rw [h1, h2, min_double_cap k]
  · have hge : U32_MAX ≤ k := by
      rw [U32_MAX_eq] at hcase ⊢
      omega
    have h1 : min k U32_MAX = U32_MAX := Nat.min_eq_right hge
    have h2 : min (k + 1) U32_MAX = U32_MAX :=
      Nat.min_eq_right (Nat.le_trans hge (Nat.le_succ k))
    rw [h1, h2]
    have hbig : 1000 ≤ 10 * 2 ^ U32_MAX := by
      have h100 : U32_MAX < 2 ^ U32_MAX := Nat.lt_two_pow U32_MAX
      have h1000 : 1000 ≤ U32_MAX := by
        rw [U32_MAX_eq]
        omega
      omega
    generalize 2 ^ U32_MAX = A at hbig ⊢
    omega

/-- C8 counterexample: in both workers the first backoff sleep after a
fresh counter is 20 ms, not the 10 ms the claim states, because
`error_count` is incremented before the sleep is computed. -/
theorem C8_counterexample_first_backoff_is_20ms :
    v4BackoffAfter 1 = some 20 ∧ v6BackoffAfter 1 = some 20 ∧
    v4BackoffAfter 1 ≠ some 10 ∧ v6BackoffAfter 1 ≠ some 10 := by
  refine ⟨?_, ?_, ?_, ?_⟩ <;>
    simp [v4BackoffAfter, v6BackoffAfter, v4ErrorCountAfter, v6ErrorCountAfter,
      v4RecvErrorStep, v6RecvErrorStep, satAddOne32, satMul64, satPow64,
      U32_MAX, U64_MAX, MAX_BACKOFF_MS]

/-- C8 (amended): in both worker loops every recv error other than
ConnectionReset and Interrupted sleeps; the first consecutive sleep is
20 ms, each further consecutive error doubles the sleep up to the 1000 ms
cap, the counter resets to the start on any successful recv, and
ConnectionReset and Interrupted never sleep and leave the counter alone. -/
theorem C8_backoff_starts_at_20ms_doubles_capped :
    (v4BackoffAfter 1 = some 20 ∧ v6BackoffAfter 1 = some 20)
  ∧ (∀ k b, 1 ≤ k → v4BackoffAfter k = some b →
      v4BackoffAfter (k + 1) = some (min (2 * b) 1000) ∧ b ≤ 1000)
  ∧ (∀ k b, 1 ≤ k → v6BackoffAfter k = some b →
      v6BackoffAfter (k + 1) = some (min (2 * b) 1000) ∧ b ≤ 1000)
  ∧ (∀ c, v4RecvErrorStep .ConnectionReset c = (c, none)
      ∧ v4RecvErrorStep .Interrupted c = (c, none)
      ∧ v6RecvErrorStep .ConnectionReset c = (c, none)
      ∧ v6RecvErrorStep .Interrupted c = (c, none))
  ∧ (∀ c, v4RecvSuccessStep c = 0 ∧ v6RecvSuccessStep c = 0) := by
  have hmain : ∀ k b, 1 ≤ k → v4BackoffAfter k = some b →
      v4BackoffAfter (k + 1) = some (min (2 * b) 1000) ∧ b ≤ 1000 := by
    intro k b hk hb
    rw [v4BackoffAfter_formula k hk] at hb
    have hb2 : b = min (10 * 2 ^ (min k U32_MAX)) 1000 := by
      exact (Option.some.injEq _ _).mp hb.symm
    refine ⟨?_, ?_⟩
    · rw [v4BackoffAfter_formula (k + 1) (by omega), backoff_min_succ k, ← hb2]
    · rw [hb2]
      exact Nat.min_le_right _ _
  refine ⟨⟨?_, ?_⟩, hmain, ?_, ?_, ?_⟩
  · rw [v4BackoffAfter_formula 1 (by omega), U32_MAX_eq]
    norm_num
  · rw [v6BackoffAfter_eq_v4, v4BackoffAfter_formula 1 (by omega), U32_MAX_eq]
    norm_num
  · intro k b hk hb
    rw [v6BackoffAfter_eq_v4] at hb
    rw [v6BackoffAfter_eq_v4]
    exact hmain k b hk hb
  · intro c
    exact ⟨rfl, rfl, rfl, rfl⟩
  · intro c
    exact ⟨rfl, rfl⟩

/-! ## IAID bookkeeping for the v6 claims -/

/-- The IAIDs of the IA_NA options of an option list. -/
def ianaIds (l : List V6Opt) : List Nat :=
  l.filterMap (fun o => match o with
    | .iana id _ _ _ => some id
    | _ => none)

/-- The IAIDs of the IA_PD options of an option list. -/
def iapdIds (l : List V6Opt) : List Nat :=
  l.filterMap (fun o => match o with
    | .iapd id _ _ _ => some id
    | _ => none)

theorem ianaIds_append (a b : List V6Opt) :
    ianaIds (a ++ b) = ianaIds a ++ ianaIds b :=
  List.filterMap_append a b _

theorem iapdIds_append (a b : List V6Opt) :
    iapdIds (a ++ b) = iapdIds a ++ iapdIds b :=
  List.filterMap_append a b _

theorem mem_ianaIds (l : List V6Opt) (id t1 t2 : Nat) (sub : List V6Opt)
    (h : V6Opt.iana id t1 t2 sub ∈ l) : id ∈ ianaIds l :=
  List.mem_filterMap.mpr ⟨_, h, rfl⟩

theorem mem_iapdIds (l : List V6Opt) (id t1 t2 : Nat) (sub : List V6Opt)
    (h : V6Opt.iapd id t1 t2 sub ∈ l) : id ∈ iapdIds l :=
  List.mem_filterMap.mpr ⟨_, h, rfl⟩

/-- The first IA_NA accessor only returns options of the message. -/
theorem ia_na_mem (msg : V6Message) (id t1 t2 : Nat) (sub : List V6Opt)
    (h : msg.ia_na = some (id, t1, t2, sub)) :
    V6Opt.iana id t1 t2 sub ∈ msg.opts := by
  unfold V6Message.ia_na at h
  obtain ⟨a, ha, hfa⟩ := List.exists_of_findSome?_eq_some h
  cases a <;> simp at hfa
  obtain ⟨rfl, rfl, rfl, rfl⟩ := hfa
  exact ha

/-- The first IA_PD accessor only returns options of the message. -/
theorem ia_pd_mem (msg : V6Message) (id t1 t2 : Nat) (sub : List V6Opt)
    (h : msg.ia_pd = some (id, t1, t2, sub)) :
    V6Opt.iapd id t1 t2 sub ∈ msg.opts := by
  unfold V6Message.ia_pd at h
  obtain ⟨a, ha, hfa⟩ := List.exists_of_findSome?_eq_some h
  cases a <;> simp at hfa
  obtain ⟨rfl, rfl, rfl, rfl⟩ := hfa
  exact ha

theorem iapdThenIana_ianaIds (msg : V6Message) (res : Reservation) :
    ianaIds (V6.iapdThenIanaOpts msg res) ⊆ ianaIds msg.opts := by
  unfold V6.iapdThenIanaOpts
  rcases hna : msg.ia_na with _ | ⟨idn, tn1, tn2, subn⟩ <;>
    rcases hpd : msg.ia_pd with _ | ⟨idp, tp1, tp2, subp⟩ <;>
    simp [ianaIds_append, ianaIds, V6.reservedIana, V6.reservedIapd] <;>
    exact ⟨_, ia_na_mem msg _ _ _ _ hna, rfl⟩

theorem iapdThenIana_iapdIds (msg : V6Message) (res : Reservation) :
    iapdIds (V6.iapdThenIanaOpts msg res) ⊆ iapdIds msg.opts := by
  unfold V6.iapdThenIanaOpts
  rcases hna : msg.ia_na with _ | ⟨idn, tn1, tn2, subn⟩ <;>
    rcases hpd : msg.ia_pd with _ | ⟨idp, tp1, tp2, subp⟩ <;>
    simp [iapdIds_append, iapdIds, V6.reservedIana, V6.reservedIapd] <;>
    exact ⟨_, ia_pd_mem msg _ _ _ _ hpd, rfl⟩

theorem renewReply_ianaIds (msg : V6Message) (res : Reservation) :
    ianaIds (V6.renewReplyOpts msg res) ⊆ ianaIds msg.opts := by
  unfold V6.renewReplyOpts
  rcases hna : msg.ia_na with _ | ⟨idn, tn1, tn2, subn⟩ <;>
    rcases hpd : msg.ia_pd with _ | ⟨idp, tp1, tp2, subp⟩ <;>
    simp [ianaIds_append, ianaIds, V6.reservedIana, V6.reservedIapd] <;>
    exact ⟨_, ia_na_mem msg _ _ _ _ hna, rfl⟩

theorem renewReply_iapdIds (msg : V6Message) (res : Reservation) :
    iapdIds (V6.renewReplyOpts msg res) ⊆ iapdIds msg.opts := by
  unfold V6.renewReplyOpts
  rcases hna : msg.ia_na with _ | ⟨idn, tn1, tn2, subn⟩ <;>
    rcases hpd : msg.ia_pd with _ | ⟨idp, tp1, tp2, subp⟩ <;>
    simp [iapdIds_append, iapdIds, V6.reservedIana, V6.reservedIapd] <;>
    exact ⟨_, ia_pd_mem msg _ _ _ _ hpd, rfl⟩

theorem noBinding_ianaIds (l : List V6Opt) :
    ianaIds (V6.noBindingReplyOpts l) ⊆ ianaIds l := by
  intro x hx
  rw [ianaIds, List.mem_filterMap] at hx
  obtain ⟨o, ho, hfo⟩ := hx
  rw [V6.noBindingReplyOpts, List.mem_filterMap] at ho
  obtain ⟨a, ha, hfa⟩ := ho
  cases a <;> simp at hfa
  case iana id t1 t2 sub =>
    obtain ⟨rfl⟩ := hfa
    simp at hfo
    obtain ⟨rfl⟩ := hfo
    exact mem_ianaIds _ _ _ _ _ ha
  case iapd id t1 t2 sub =>
    obtain ⟨rfl⟩ := hfa
    simp at hfo

theorem noBinding_iapdIds (l : List V6Opt) :
    iapdIds (V6.noBindingReplyOpts l) ⊆ iapdIds l := by
  intro x hx
  rw [iapdIds, List.mem_filterMap] at hx
  obtain ⟨o, ho, hfo⟩ := hx
  rw [V6.noBindingReplyOpts, List.mem_filterMap] at ho
  obtain ⟨a, ha, hfa⟩ := ho
  cases a <;> simp at hfa
  case iana id t1 t2 sub =>
    obtain ⟨rfl⟩ := hfa
    simp at hfo
  case iapd id t1 t2 sub =>
    obtain ⟨rfl⟩ := hfa
    simp at hfo
    obtain ⟨rfl⟩ := hfo
    exact mem_iapdIds _ _ _ _ _ ha

/-- IAID echo for `handle_solicit`. -/
theorem solicit_echoes_iaids (config : Config) (resolver : V6.Resolver)
    (leases : LeaseDbV6) (now : Nat) (msg reply : V6Message)
    (r : Option Reservation) (mi : Option ReservationMatch)
    (h : (V6.handle_solicit config resolver leases now msg).1 =
      .Message reply r mi) :
    ianaIds reply.opts ⊆ ianaIds msg.opts ∧
    iapdIds reply.opts ⊆ iapdIds msg.opts := by
  rcases hcid : msg.client_id with _ | cid
  · simp [V6.handle_solicit, hcid] at h
  rcases hsid : msg.server_id with _ | sid
  swap
  · simp [V6.handle_solicit, hcid, hsid] at h
  rcases hres : resolver cid with _ | ⟨res, mi2⟩
  · simp [V6.handle_solicit, hcid, hsid, hres] at h
  simp only [V6.handle_solicit, hcid, hsid, hres, Option.isSome_none,
    Bool.false_eq_true, if_false] at h
  rw [V6.DhcpV6Response.Message.injEq] at h
  obtain ⟨hreply, hrr, hmi⟩ := h
  subst hreply
  constructor
  · intro x hx
    simp only [ianaIds_append] at hx
    rcases List.mem_append.mp hx with hx1 | hx2
    · rcases List.mem_append.mp hx1 with hx0 | hxb
      · revert hx0
        split <;> simp [ianaIds]
      · exact iapdThenIana_ianaIds msg res hxb
    · simp [ianaIds] at hx2
  · intro x hx
    simp only [iapdIds_append] at hx
    rcases List.mem_append.mp hx with hx1 | hx2
    · rcases List.mem_append.mp hx1 with hx0 | hxb
      · revert hx0
        split <;> simp [iapdIds]
      · exact iapdThenIana_iapdIds msg res hxb
    · simp [iapdIds] at hx2

/-- IAID echo for the v6 `handle_request`. -/
theorem request_echoes_iaids (config : Config) (resolver : V6.Resolver)
    (leases : LeaseDbV6) (now : Nat) (msg reply : V6Message)
    (r : Option Reservation) (mi : Option ReservationMatch)
    (h : (V6.handle_request config resolver leases now msg).1 =
      .Message reply r mi) :
    ianaIds reply.opts ⊆ ianaIds msg.opts ∧
    iapdIds reply.opts ⊆ iapdIds msg.opts := by
  rcases hcid : msg.client_id with _ | cid
  · simp [V6.handle_request, hcid] at h
  rcases hsid : msg.server_id with _ | sid
  · simp [V6.handle_request, hcid, hsid] at h
  by_cases hmatch : sid = config.v6_server_id
  swap
  · simp [V6.handle_request, hcid, hsid, hmatch] at h
  rcases hres : resolver cid with _ | ⟨res, mi2⟩
  · simp [V6.handle_request, hcid, hsid, hmatch, hres] at h
  simp only [V6.handle_request, hcid, hsid, hmatch, hres, if_true] at h
  rw [V6.DhcpV6Response.Message.injEq] at h
  obtain ⟨hreply, hrr, hmi⟩ := h
  subst hreply
  constructor
  · intro x hx
    simp only [ianaIds_append] at hx
    rcases List.mem_append.mp hx with hxb | hx2
    · exact iapdThenIana_ianaIds msg res hxb
    · simp [ianaIds] at hx2
  · intro x hx
    simp only [iapdIds_append] at hx
    rcases List.mem_append.mp hx with hxb | hx2
    · exact iapdThenIana_iapdIds msg res hxb
    · simp [iapdIds] at hx2

/-- IAID echo for `handle_renew`. -/
theorem renew_echoes_iaids (config : Config) (resolver : V6.Resolver)
    (leases : LeaseDbV6) (now : Nat) (msg reply : V6Message)
    (r : Option Reservation) (mi : Option ReservationMatch)
    (h : (V6.handle_renew config resolver leases now msg).1 =
      .Message reply r mi) :
    ianaIds reply.opts ⊆ ianaIds msg.opts ∧
    iapdIds reply.opts ⊆ iapdIds msg.opts := by
  rcases hcid : msg.client_id with _ | cid
  · simp [V6.handle_renew, hcid] at h
  rcases hsid : msg.server_id with _ | sid
  · simp [V6.handle_renew, hcid, hsid] at h
  by_cases hmatch : sid = config.v6_server_id
  swap
  · simp [V6.handle_renew, hcid, hsid, hmatch] at h
  rcases hres : resolver cid with _ | ⟨res, mi2⟩
  · simp only [V6.handle_renew, hcid, hsid, hmatch, hres, if_true] at h
    rw [V6.DhcpV6Response.Message.injEq] at h
    obtain ⟨hreply, hrr, hmi⟩ := h
    subst hreply
    constructor
    · intro x hx
      simp only [ianaIds_append] at hx
      rcases List.mem_append.mp hx with hxb | hx2
      · exact noBinding_ianaIds msg.opts hxb
      · simp [ianaIds] at hx2
    · intro x hx
      simp only [iapdIds_append] at hx
      rcases List.mem_append.mp hx with hxb | hx2
      · exact noBinding_iapdIds msg.opts hxb
      · simp [iapdIds] at hx2
  · simp only [V6.handle_renew, hcid, hsid, hmatch, hres, if_true] at h
    rw [V6.DhcpV6Response.Message.injEq] at h
    obtain ⟨hreply, hrr, hmi⟩ := h
    subst hreply
    constructor
    · intro x hx
      simp only [ianaIds_append] at hx
      rcases List.mem_append.mp hx with hxb | hx2
      · exact renewReply_ianaIds msg res hxb
      · simp [ianaIds] at hx2
    · intro x hx
      simp only [iapdIds_append] at hx
      rcases List.mem_append.mp hx with hxb | hx2
      · exact renewReply_iapdIds msg res hxb
      · simp [iapdIds] at hx2

/-- IAID echo for `handle_rebind`. -/
theorem rebind_echoes_iaids (config : Config) (resolver : V6.Resolver)
    (leases : LeaseDbV6) (now : Nat) (msg reply : V6Message)
    (r : Option Reservation) (mi : Option ReservationMatch)
    (h : (V6.handle_rebind config resolver leases now msg).1 =
      .Message reply r mi) :
    ianaIds reply.opts ⊆ ianaIds msg.opts ∧
    iapdIds reply.opts ⊆ iapdIds msg.opts := by
  rcases hcid : msg.client_id with _ | cid
  · simp [V6.handle_rebind, hcid] at h
  rcases hres : resolver cid with _ | ⟨res, mi2⟩
  · simp only [V6.handle_rebind, hcid, hres] at h
    rw [V6.DhcpV6Response.Message.injEq] at h
    obtain ⟨hreply, hrr, hmi⟩ := h
    subst hreply
    constructor
    · intro x hx
      simp only [ianaIds_append] at hx
      rcases List.mem_append.mp hx with hxb | hx2
      · exact noBinding_ianaIds msg.opts hxb
      · simp [ianaIds] at hx2
    · intro x hx
      simp only [iapdIds_append] at hx
      rcases List.mem_append.mp hx with hxb | hx2
      · exact noBinding_iapdIds msg.opts hxb
      · simp [iapdIds] at hx2
  · simp only [V6.handle_rebind, hcid, hres] at h
    rw [V6.DhcpV6Response.Message.injEq] at h
    obtain ⟨hreply, hrr, hmi⟩ := h
    subst hreply
    constructor
    · intro x hx
      simp only [ianaIds_append] at hx
      rcases List.mem_append.mp hx with hxb | hx2
      · exact renewReply_ianaIds msg res hxb
      · simp [ianaIds] at hx2
    · intro x hx
      simp only [iapdIds_append] at hx
      rcases List.mem_append.mp hx with hxb | hx2
      · exact renewReply_iapdIds msg res hxb
      · simp [iapdIds] at hx2

/-! ## Claims C2, C3, C9 -/

/-- C3: for every DHCPv6 response to a Solicit, Request, Renew or Rebind
carrying an IA_NA or IA_PD option, the IAID of that option equals the IAID
of a corresponding IA_NA/IA_PD option of the client's request — the server
never synthesizes a fresh IAID. -/
theorem C3_responses_echo_request_iaids (config : Config)
    (resolver : V6.Resolver) (leases : LeaseDbV6) (now : Nat)
    (msg reply : V6Message) (r : Option Reservation)
    (mi : Option ReservationMatch)
    (h : (V6.handle_message config resolver leases now msg).1 =
      .Message reply r mi) :
    ianaIds reply.opts ⊆ ianaIds msg.opts ∧
    iapdIds reply.opts ⊆ iapdIds msg.opts := by
  cases hmt : msg.msg_type with
  | Solicit =>
      simp only [V6.handle_message, hmt] at h
      exact solicit_echoes_iaids config resolver leases now msg reply r mi h
  | Request =>
      simp only [V6.handle_message, hmt] at h
      exact request_echoes_iaids config resolver leases now msg reply r mi h
  | Renew =>
      simp only [V6.handle_message, hmt] at h
      exact renew_echoes_iaids config resolver leases now msg reply r mi h
  | Rebind =>
      simp only [V6.handle_message, hmt] at h
      exact rebind_echoes_iaids config resolver leases now msg reply r mi h
  | Advertise => simp [V6.handle_message, hmt] at h
  | Reply => simp [V6.handle_message, hmt] at h
  | Other n => simp [V6.handle_message, hmt] at h

def testConfig6 : Config :=
  { v4_server_id := 167772161
    v6_server_id := [0, 3]
    dns_v4 := []
    subnets_v4 := []
    option82_extractors := [] }

def C3msg : V6Message :=
  ⟨.Rebind, 5, [.clientId [1, 2], .iana 7 1 2 [.iaaddr 99 3 4 []],
    .iapd 8 1 2 [.iapfx 3 4 56 77 []]]⟩

def C3reply : V6Message :=
  ⟨.Reply, 5, V6.noBindingReplyOpts C3msg.opts ++
    [.serverId [0, 3], .clientId [1, 2]]⟩

/-- Witness for C3 at a concrete Rebind whose reply carries both IA kinds:
the reply's IAIDs all occur among the request's. -/
theorem C3_responses_echo_request_iaids_witness :
    ianaIds C3reply.opts ⊆ ianaIds C3msg.opts ∧
    iapdIds C3reply.opts ⊆ iapdIds C3msg.opts :=
  C3_responses_echo_request_iaids testConfig6 (fun _ => none) ⟨[]⟩ 0 C3msg
    C3reply none none (by rfl)

/-- C2: a Renew carrying a ClientId and the server's own ServerId, and a
Rebind carrying a ClientId, are answered with a Reply even when the
resolver finds no reservation; every IA_NA and IA_PD of the request
reappears with the lifetimes of its contained IAAddr/IAPrefix options
zeroed and a StatusCode(NoBinding, "No binding for this IA") inserted
inside the IA option, and no message-level StatusCode is produced. -/
theorem C2_renew_rebind_no_binding_reply (config : Config)
    (resolver : V6.Resolver) (leases : LeaseDbV6) (now : Nat)
    (msg : V6Message) (cid : List Nat)
    (hcid : msg.client_id = some cid)
    (hres : resolver cid = none) :
    (msg.server_id = some config.v6_server_id →
      (V6.handle_renew config resolver leases now msg).1 =
        .Message ⟨.Reply, msg.xid, V6.noBindingReplyOpts msg.opts ++
          [.serverId config.v6_server_id, .clientId cid]⟩ none none)
  ∧ (V6.handle_rebind config resolver leases now msg).1 =
      .Message ⟨.Reply, msg.xid, V6.noBindingReplyOpts msg.opts ++
        [.serverId config.v6_server_id, .clientId cid]⟩ none none
  ∧ (∀ id t1 t2 sub, V6Opt.iana id t1 t2 sub ∈ msg.opts →
      V6Opt.iana id t1 t2 (V6.zeroIanaLifetimes sub ++ [V6.noBindingStatus]) ∈
        V6.noBindingReplyOpts msg.opts ++
          [V6Opt.serverId config.v6_server_id, V6Opt.clientId cid])
  ∧ (∀ id t1 t2 sub, V6Opt.iapd id t1 t2 sub ∈ msg.opts →
      V6Opt.iapd id t1 t2 (V6.zeroIapdLifetimes sub ++ [V6.noBindingStatus]) ∈
        V6.noBindingReplyOpts msg.opts ++
          [V6Opt.serverId config.v6_server_id, V6Opt.clientId cid])
  ∧ (∀ s m, V6Opt.statusCode s m ∉
      V6.noBindingReplyOpts msg.opts ++
        [V6Opt.serverId config.v6_server_id, V6Opt.clientId cid]) := by
  refine ⟨?_, ?_, ?_, ?_, ?_⟩
  · intro hsid
    simp [V6.handle_renew, hcid, hsid, hres]
  · simp [V6.handle_rebind, hcid, hres]
  · intro id t1 t2 sub hmem
    exact List.mem_append_left _
      (List.mem_filterMap.mpr ⟨V6Opt.iana id t1 t2 sub, hmem, rfl⟩)
  · intro id t1 t2 sub hmem
    exact List.mem_append_left _
      (List.mem_filterMap.mpr ⟨V6Opt.iapd id t1 t2 sub, hmem, rfl⟩)
  · intro s m hmem
    rcases List.mem_append.mp hmem with h1 | h2
    · obtain ⟨a, ha, hfa⟩ := List.mem_filterMap.mp h1
      cases a <;> simp at hfa
    · simp at h2

def C2msg : V6Message :=
  ⟨.Renew, 9, [.clientId [222, 173], .serverId [0, 3],
    .iana 1 10 20 [.iaaddr 4660 100 200 []]]⟩

/-- Witness for C2: a concrete Renew and Rebind with no matching
reservation both yield the no-binding Reply, and its single IA_NA
reappears zeroed with the NoBinding status inside. -/
theorem C2_renew_rebind_no_binding_reply_witness :
    (V6.handle_renew testConfig6 (fun _ => none) ⟨[]⟩ 0 C2msg).1 =
      .Message ⟨.Reply, 9, V6.noBindingReplyOpts C2msg.opts ++
        [.serverId [0, 3], .clientId [222, 173]]⟩ none none
  ∧ (V6.handle_rebind testConfig6 (fun _ => none) ⟨[]⟩ 0 C2msg).1 =
      .Message ⟨.Reply, 9, V6.noBindingReplyOpts C2msg.opts ++
        [.serverId [0, 3], .clientId [222, 173]]⟩ none none
  ∧ V6Opt.iana 1 10 20
      (V6.zeroIanaLifetimes [.iaaddr 4660 100 200 []] ++ [V6.noBindingStatus]) ∈
        V6.noBindingReplyOpts C2msg.opts ++
          [V6Opt.serverId [0, 3], V6Opt.clientId [222, 173]] :=
  ⟨(C2_renew_rebind_no_binding_reply testConfig6 (fun _ => none) ⟨[]⟩ 0 C2msg
      [222, 173] rfl rfl).1 rfl,
   (C2_renew_rebind_no_binding_reply testConfig6 (fun _ => none) ⟨[]⟩ 0 C2msg
      [222, 173] rfl rfl).2.1,
   (C2_renew_rebind_no_binding_reply testConfig6 (fun _ => none) ⟨[]⟩ 0 C2msg
      [222, 173] rfl rfl).2.2.1 1 10 20 [.iaaddr 4660 100 200 []]
      (by simp [C2msg])⟩

/-- C9: a Rebind carrying a ClientId is answered with a Reply even when it
carries a ServerId whose bytes differ from the server's identity — the
ServerId of a Rebind is never compared — while the same message handled as
a Renew is WrongServerId silence. -/
theorem C9_rebind_never_checks_server_id (config : Config)
    (resolver : V6.Resolver) (leases : LeaseDbV6) (now : Nat)
    (msg : V6Message) (cid b : List Nat)
    (hcid : msg.client_id = some cid)
    (hsid : msg.server_id = some b) (hb : b ≠ config.v6_server_id) :
    (∃ reply rr mm, (V6.handle_rebind config resolver leases now msg).1 =
        .Message reply rr mm ∧ reply.msg_type = .Reply)
  ∧ (V6.handle_renew config resolver leases now msg).1 =
      .NoResponse .WrongServerId := by
  constructor
  · rcases hres : resolver cid with _ | ⟨res, mi⟩
    · exact ⟨⟨.Reply, msg.xid, V6.noBindingReplyOpts msg.opts ++
          [.serverId config.v6_server_id, .clientId cid]⟩, none, none,
        by simp [V6.handle_rebind, hcid, hres], rfl⟩
    · exact ⟨⟨.Reply, msg.xid, V6.renewReplyOpts msg res ++
          [.serverId config.v6_server_id, .clientId cid]⟩, some res, some mi,
        by simp [V6.handle_rebind, hcid, hres], rfl⟩
  · simp [V6.handle_renew, hcid, hsid, hb]

def C9msg : V6Message :=
  ⟨.Rebind, 1, [.clientId [1], .serverId [7, 7], .iana 3 0 0 []]⟩

/-- Witness for C9: a concrete Rebind with a foreign ServerId still gets a
Reply; as a Renew the same message is WrongServerId silence. -/
theorem C9_rebind_never_checks_server_id_witness :
    (∃ reply rr mm,
      (V6.handle_rebind testConfig6 (fun _ => none) ⟨[]⟩ 0 C9msg).1 =
        .Message reply rr mm ∧ reply.msg_type = .Reply)
  ∧ (V6.handle_renew testConfig6 (fun _ => none) ⟨[]⟩ 0 C9msg).1 =
      .NoResponse .WrongServerId :=
  C9_rebind_never_checks_server_id testConfig6 (fun _ => none) ⟨[]⟩ 0 C9msg
    [1] [7, 7] rfl rfl (by decide)

/-- Witness for C8 at concrete counts: sleeps of 20, 40, 80 ms on the
first three consecutive errors, and the cap behavior at a large count. -/
theorem C8_backoff_starts_at_20ms_doubles_capped_witness :
    v4BackoffAfter 2 = some (min (2 * 20) 1000) ∧
    v6BackoffAfter 2 = some (min (2 * 20) 1000) ∧
    v4RecvErrorStep .ConnectionReset 3 = (3, none) ∧
    v4RecvSuccessStep 7 = 0 :=
  ⟨(C8_backoff_starts_at_20ms_doubles_capped.2.1 1 20 (by decide)
      C8_backoff_starts_at_20ms_doubles_capped.1.1).1,
   (C8_backoff_starts_at_20ms_doubles_capped.2.2.1 1 20 (by decide)
      C8_backoff_starts_at_20ms_doubles_capped.1.2).1,
   (C8_backoff_starts_at_20ms_doubles_capped.2.2.2.1 3).1,
   (C8_backoff_starts_at_20ms_doubles_capped.2.2.2.2 7).1⟩

/-! ## v4 fixtures and claims -/

def subnet24 : V4Subnet :=
  { net := ⟨3232235776, 24⟩, gateway := 3232235777, reply_prefix_len := none }

def testConfig4 : Config :=
  { v4_server_id := 167772161
    v6_server_id := [0, 3]
    dns_v4 := [134744072, 134743044]
    subnets_v4 := [subnet24]
    option82_extractors := [("remote_only", remote_only)] }

def macOfRes1 : Mac := [0, 17, 34, 51, 68, 85]

def C1res : Reservation :=
  ⟨3232235876, 0, ⟨0, 56⟩, some macOfRes1, none, none, none⟩

def C1db : ReservationDb := ReservationDb.insert ⟨[]⟩ C1res

/-! ## Claim C7 -/

/-- C7 counterexample: a REQUEST whose tuple matches none of the four
variants (ServerId present together with a nonzero ciaddr) but whose
chaddr has no reservation is reported NoReservation, not Discarded —
classification never runs because resolution failed first. -/
def C7msg : V4Message :=
  { opcode := .BootRequest, xid := 1, secs := 0, flags := 0
    ciaddr := 3232235876, yiaddr := 0, siaddr := 0, giaddr := 0
    chaddr := [1, 2, 3, 4, 5, 6], sname := ""
    opts := [.messageType .Request, .serverIdentifier 167772161] }

/-- C7 counterexample: this unclassifiable REQUEST (its variant tuple
matches none of the four) is reported NoReservation rather than Discarded,
because `handle_request` resolves the reservation before classifying. -/
theorem C7_counterexample_unclassifiable_is_noreservation :
    V4.classifyRequest testConfig4 C7msg = some none
  ∧ (V4.handle_request ⟨[]⟩ LeaseDb.new testConfig4 0 C7msg).1 =
      .NoResponse .NoReservation
  ∧ (V4.handle_request ⟨[]⟩ LeaseDb.new testConfig4 0 C7msg).1 ≠
      .NoResponse .Discarded := by
  refine ⟨by decide, by decide, by decide⟩

/-- C7 (amended): `handle_request` resolves the reservation and subnet
before classifying the variant tuple.  When a reservation and containing
subnet are found, a tuple matching none of the four variants is Discarded
and a mismatched SELECTING server_id is WrongServerId; but when no
reservation resolves, the handler reports NoReservation regardless of the
tuple, so an unclassifiable REQUEST is not Discarded in that case. -/
theorem C7_classification_after_resolution (reservations : ReservationDb)
    (leases : LeaseDb) (config : Config) (now : Nat) :
    (∀ (msg : V4Message) (mac : Mac) (res : Reservation)
        (mi : ReservationMatch) (gw mask : Nat),
      macAddr6TryFrom msg.chaddr = some mac →
      V4.find_reservation reservations config.option82_extractors mac
        msg.relay_agent_information = some (res, mi) →
      V4.findSubnet config res.ipv4 = some (gw, mask) →
      (V4.classifyRequest config msg = some none →
        (V4.handle_request reservations leases config now msg).1 =
          .NoResponse .Discarded) ∧
      (V4.classifyRequest config msg = none →
        (V4.handle_request reservations leases config now msg).1 =
          .NoResponse .WrongServerId))
  ∧ (∀ (msg : V4Message) (mac : Mac),
      macAddr6TryFrom msg.chaddr = some mac →
      V4.find_reservation reservations config.option82_extractors mac
        msg.relay_agent_information = none →
      (V4.handle_request reservations leases config now msg).1 =
        .NoResponse .NoReservation) := by
  constructor
  · intro msg mac res mi gw mask hmac hres hsub
    constructor
    · intro hclass
      simp [V4.handle_request, hmac, hres, hsub, hclass]
    · intro hclass
      simp [V4.handle_request, hmac, hres, hsub, hclass]
  · intro msg mac hmac hres
    simp [V4.handle_request, hmac, hres]

def C7msg2 : V4Message :=
  { C7msg with chaddr := macOfRes1 }

/-- Witness for C7 at a concrete environment: with a resolved reservation
and subnet the unclassifiable tuple is Discarded, and with an empty index
the same message is NoReservation. -/
theorem C7_classification_after_resolution_witness :
    (V4.handle_request C1db LeaseDb.new testConfig4 0 C7msg2).1 =
      .NoResponse .Discarded
  ∧ (V4.handle_request ⟨[]⟩ LeaseDb.new testConfig4 0 C7msg2).1 =
      .NoResponse .NoReservation :=
  ⟨((C7_classification_after_resolution C1db LeaseDb.new testConfig4 0).1
      C7msg2 macOfRes1 C1res .mac 3232235777 4294967040 (by decide) (by decide)
      (by decide)).1 (by decide),
   (C7_classification_after_resolution ⟨[]⟩ LeaseDb.new testConfig4 0).2
      C7msg2 macOfRes1 (by decide) (by decide)⟩

/-! ## Claim C1 -/

theorem flagsBroadcast_set (f : Nat) :
    flagsBroadcast (flagsSetBroadcast f) = true := by
  unfold flagsBroadcast flagsSetBroadcast
  rw [Nat.testBit_lor]
  simp only [Bool.or_eq_true]
  exact Or.inr (by decide)

def C1nakMsg : V4Message :=
  { opcode := .BootRequest, xid := 77, secs := 0, flags := 32768
    ciaddr := 0, yiaddr := 0, siaddr := 0, giaddr := 0
    chaddr := macOfRes1, sname := ""
    opts := [.messageType .Request, .requestedIpAddress 3232235875] }

def C1nakReply : V4Message :=
  { opcode := .BootReply, xid := 77, secs := 0, flags := 32768
    ciaddr := 0, yiaddr := 0, siaddr := 0, giaddr := 0
    chaddr := macOfRes1, sname := "dhcp.shadowinter.net"
    opts := [.messageType .Nak, .serverIdentifier 167772161, .optEnd] }

/-- C1 counterexample: an INIT-REBOOT REQUEST with the client's own
broadcast flag set and `giaddr = 0`, requesting an address other than the
reservation's, is NAKed with the broadcast flag still set although
`giaddr` is zero — the handler preserves the client's flags before ORing
in broadcast, so "broadcast set iff giaddr nonzero" fails. -/
theorem C1_counterexample_broadcast_without_giaddr :
    (V4.handle_request C1db LeaseDb.new testConfig4 0 C1nakMsg).1 =
      .Message C1nakReply (some C1res) (some .mac)
  ∧ C1nakMsg.giaddr = 0
  ∧ flagsBroadcast C1nakReply.flags = true := by
  refine ⟨by decide, by decide, by decide⟩

/-- C1 (amended): a REQUEST with a resolved reservation and containing
subnet, classified into one of the four variants, whose requested address
differs from the reservation's, is NAKed: `yiaddr` is zero, the options
are exactly MessageType=Nak, ServerIdentifier=v4_server_id, End, the
header echoes the request, and the broadcast flag is set iff `giaddr` is
nonzero or the request's own broadcast flag was already set. -/
theorem C1_nak_discipline (reservations : ReservationDb) (leases : LeaseDb)
    (config : Config) (now : Nat) (msg : V4Message) (mac : Mac)
    (res : Reservation) (mi : ReservationMatch) (gw mask reqip : Nat)
    (hmac : macAddr6TryFrom msg.chaddr = some mac)
    (hres : V4.find_reservation reservations config.option82_extractors mac
      msg.relay_agent_information = some (res, mi))
    (hsub : V4.findSubnet config res.ipv4 = some (gw, mask))
    (hclass : V4.classifyRequest config msg = some (some reqip))
    (hneq : reqip ≠ res.ipv4) :
    ∃ reply, (V4.handle_request reservations leases config now msg).1 =
        .Message reply (some res) (some mi)
      ∧ reply.yiaddr = 0
      ∧ reply.opts = [.messageType .Nak,
          .serverIdentifier config.v4_server_id, .optEnd]
      ∧ (flagsBroadcast reply.flags = true ↔
          (msg.giaddr ≠ 0 ∨ flagsBroadcast msg.flags = true))
      ∧ reply.opcode = .BootReply ∧ reply.xid = msg.xid
      ∧ reply.giaddr = msg.giaddr ∧ reply.chaddr = msg.chaddr := by
  by_cases hg : msg.giaddr = 0
  · refine ⟨⟨.BootReply, msg.xid, 0, msg.flags, 0, 0, 0, msg.giaddr,
      msg.chaddr, "dhcp.shadowinter.net",
      [.messageType .Nak, .serverIdentifier config.v4_server_id, .optEnd]⟩,
      ?_, rfl, rfl, ?_, rfl, rfl, rfl, rfl⟩
    · simp [V4.handle_request, hmac, hres, hsub, hclass, hneq,
        V4.replyHeader, hg, v4OptsInsert, V4Opt.code]
    · simp [hg]
  · refine ⟨⟨.BootReply, msg.xid, 0, flagsSetBroadcast msg.flags, 0, 0, 0,
      msg.giaddr, msg.chaddr, "dhcp.shadowinter.net",
      [.messageType .Nak, .serverIdentifier config.v4_server_id, .optEnd]⟩,
      ?_, rfl, rfl, ?_, rfl, rfl, rfl, rfl⟩
    · simp [V4.handle_request, hmac, hres, hsub, hclass, hneq,
        V4.replyHeader, hg, v4OptsInsert, V4Opt.code]
    · simp [flagsBroadcast_set, hg]

def C1nakMsg2 : V4Message :=
  { opcode := .BootRequest, xid := 78, secs := 0, flags := 0
    ciaddr := 0, yiaddr := 0, siaddr := 0, giaddr := 3232236030
    chaddr := macOfRes1, sname := ""
    opts := [.messageType .Request, .serverIdentifier 167772161,
      .requestedIpAddress 3232235875] }

/-- Witness for C1 at a concrete relayed SELECTING REQUEST for the wrong
address: the NAK has zero yiaddr, exactly the three options, and the
broadcast flag set because giaddr is nonzero. -/
theorem C1_nak_discipline_witness :
    ∃ reply, (V4.handle_request C1db LeaseDb.new testConfig4 0 C1nakMsg2).1 =
        .Message reply (some C1res) (some .mac)
      ∧ reply.yiaddr = 0
      ∧ reply.opts = [.messageType .Nak, .serverIdentifier 167772161, .optEnd]
      ∧ (flagsBroadcast reply.flags = true ↔
          (C1nakMsg2.giaddr ≠ 0 ∨ flagsBroadcast C1nakMsg2.flags = true))
      ∧ reply.opcode = .BootReply ∧ reply.xid = C1nakMsg2.xid
      ∧ reply.giaddr = C1nakMsg2.giaddr ∧ reply.chaddr = C1nakMsg2.chaddr :=
  C1_nak_discipline C1db LeaseDb.new testConfig4 0 C1nakMsg2 macOfRes1 C1res
    .mac 3232235777 4294967040 3232235875 (by decide) (by decide) (by decide)
    (by decide) (by decide)

/-! ## Claim C4 -/

def subnetOv : V4Subnet :=
  { net := ⟨3232235776, 24⟩, gateway := 3232235777, reply_prefix_len := some 30 }

def C4config : Config :=
  { v4_server_id := 167772161
    v6_server_id := [0, 3]
    dns_v4 := [134744072, 134743044]
    subnets_v4 := [subnetOv]
    option82_extractors := [("remote_only", remote_only)] }

def C4msg : V4Message :=
  { opcode := .BootRequest, xid := 5, secs := 0, flags := 0
    ciaddr := 0, yiaddr := 0, siaddr := 0, giaddr := 0
    chaddr := macOfRes1, sname := "", opts := [.messageType .Discover] }

def C4reqMsg : V4Message :=
  ⟨.BootRequest, 6, 0, 0, 0, 0, 0, 0, macOfRes1, "",
    [.messageType .Request, .serverIdentifier 167772161,
      .requestedIpAddress 3232235876]⟩

def C4offerOpts : List V4Opt :=
  [.messageType .Offer, .serverIdentifier 167772161,
    .subnetMask 4294967040, .router [3232235777],
    .domainNameServer [134744072, 134743044], .addressLeaseTime 3600,
    .renewal 1800, .rebinding 3150, .optEnd]

def C4reply : V4Message :=
  ⟨.BootReply, 5, 0, 0, 0, 3232235876, 0, 0, macOfRes1,
    "dhcp.shadowinter.net", C4offerOpts⟩

def C4ackReply : V4Message :=
  ⟨.BootReply, 6, 0, 0, 0, 3232235876, 0, 0, macOfRes1,
    "dhcp.shadowinter.net", v4OptsInsert C4offerOpts (.messageType .Ack)⟩

/-- C4 (code bug): on a subnet configured with `reply_prefix_len = 30`
over a /24 network, both the OFFER and the ACK carry SubnetMask
255.255.255.0 (the /24 mask, 4294967040) — the handlers read
`subnet.net.netmask()` and never call `V4Subnet::reply_netmask`, whose
documented and tested behavior (255.255.255.252, 4294967292, here) the
claim describes. -/
theorem C4_reply_prefix_len_override_ignored :
    V4.handle_discover C1db C4config C4msg =
      .Message C4reply (some C1res) (some .mac)
  ∧ v4OptsGet C4reply.opts 1 = some (.subnetMask 4294967040)
  ∧ (V4.handle_request C1db LeaseDb.new C4config 0 C4reqMsg).1 =
      .Message C4ackReply (some C1res) (some .mac)
  ∧ subnetOv.reply_netmask = 4294967292
  ∧ (4294967040 : Nat) ≠ 4294967292 := by
  refine ⟨by decide, by decide, by decide, by decide, by decide⟩

/-! ## Claim C5 -/

theorem assocHas_modifyAt {α β : Type} [DecidableEq α] (l : List (α × β))
    (k k2 : α) (f : β → β) :
    assocHas (modifyAt l k f) k2 = assocHas l k2 := by
  induction l with
  | nil => rfl
  | cons p rest ih =>
    rcases p with ⟨k0, v⟩
    by_cases h0 : k0 = k
    · subst h0
      simp [modifyAt, assocHas]
    · rw [modifyAt, if_neg h0]
      simp only [assocHas, List.any_cons] at ih ⊢
      rw [ih]

/-- The binding insert leaves the MAC bound afterwards. -/
theorem insert_binding_has (db : LeaseDb) (now : Nat) (mac : Mac)
    (opt : Option82) :
    assocHas (db.insert_mac_option82_binding now mac opt).mac_to_opt82 mac =
      true := by
  rw [LeaseDb.insert_mac_option82_binding]
  by_cases h : assocHas db.mac_to_opt82 mac
  · rw [if_pos h]
    simpa [assocHas_modifyAt] using h
  · rw [if_neg h]
    simp [assocHas]

/-- A `lease_v4` call for a reservation with no current lease inserts a
fresh lease with exactly the supplied fields. -/
theorem lease_v4_fresh (db : LeaseDb) (now : Nat) (res : Reservation)
    (mac : Mac) (option82 : Option Option82) (valid : Nat)
    (h : assocHas db.v4 res = false) :
    assocGet (db.lease_v4 now res mac option82 valid).v4 res =
      some ⟨now, now, valid, mac, option82⟩ := by
  cases option82 with
  | none =>
      rw [LeaseDb.lease_v4]
      simp only [h, Bool.false_eq_true, if_false]
      simp [assocGet, List.find?]
  | some opt =>
      rw [LeaseDb.lease_v4]
      simp only [insert_binding_v4_eq, h, Bool.false_eq_true, if_false]
      simp [assocGet, List.find?]

def C5res : Reservation :=
  ⟨3232235976, 0, ⟨0, 56⟩, some [170, 0, 0, 0, 0, 1], none,
    some ⟨none, some "switch1:port1", none⟩, none⟩

def C5resNoMac : Reservation :=
  ⟨3232235976, 0, ⟨0, 56⟩, none, none,
    some ⟨none, some "switch1:port1", none⟩, none⟩

def C5dbNoMac : ReservationDb := ReservationDb.insert ⟨[]⟩ C5resNoMac

def C5db : ReservationDb := ReservationDb.insert ⟨[]⟩ C5res

def C5mac : Mac := [17, 34, 51, 68, 85, 102]

def C5msg : V4Message :=
  ⟨.BootRequest, 9, 0, 0, 0, 0, 0, 0, C5mac, "",
    [.messageType .Request, .serverIdentifier 167772161,
      .requestedIpAddress 3232235976,
      .relayAgentInformation ⟨none, some "switch1:port1", none⟩]⟩

def C5ackReply : V4Message :=
  ⟨.BootReply, 9, 0, 0, 0, 3232235976, 0, 0, C5mac,
    "dhcp.shadowinter.net",
    [.messageType .Ack, .serverIdentifier 167772161,
      .subnetMask 4294967040, .router [3232235777],
      .domainNameServer [134744072, 134743044], .addressLeaseTime 3600,
      .renewal 1800, .rebinding 3150, .optEnd]⟩

/-- C5 counterexample: a reservation carrying both a MAC key and an
Option82 key, matched via the Option82 extractor (the client's chaddr
differs from the reservation's MAC), is ACKed but no MAC→Option82 binding
is recorded: the handler keys the binding on `reservation.v4_key()`, which
prefers the MAC key, not on how the reservation was matched. -/
theorem C5_counterexample_opt82_match_without_binding :
    (V4.handle_request C5db LeaseDb.new testConfig4 0 C5msg).1 =
      .Message C5ackReply (some C5res)
        (some (ReservationMatch.option82 "remote_only"))
  ∧ ((V4.handle_request C5db LeaseDb.new testConfig4 0 C5msg).2).get_opt82_by_mac
      C5mac = none := by
  refine ⟨by decide, by decide⟩

/-- C5 (amended): a REQUEST whose requested address equals the
reservation's `ipv4` is ACKed with the same option set as an OFFER except
MessageType=Ack, and the handler writes a v4 lease with
`valid = ADDRESS_LEASE_TIME` (3600 s).  The MAC→Option82 binding is
recorded exactly when `reservation.v4_key()` is its Option82 key — the
reservation carries an Option82 key and no MAC key — not when the match
came through an Option82 extractor. -/
theorem C5_ack_lease_and_binding (reservations : ReservationDb)
    (leases : LeaseDb) (config : Config) (now : Nat) (msg : V4Message)
    (mac : Mac) (res : Reservation) (mi : ReservationMatch)
    (gw mask reqip : Nat)
    (hmac : macAddr6TryFrom msg.chaddr = some mac)
    (hres : V4.find_reservation reservations config.option82_extractors mac
      msg.relay_agent_information = some (res, mi))
    (hsub : V4.findSubnet config res.ipv4 = some (gw, mask))
    (hclass : V4.classifyRequest config msg = some (some reqip))
    (heq : reqip = res.ipv4) :
    (V4.handle_request reservations leases config now msg) =
      (.Message ⟨.BootReply, msg.xid, 0, msg.flags, 0, res.ipv4, 0,
          msg.giaddr, msg.chaddr, "dhcp.shadowinter.net",
          [.messageType .Ack, .serverIdentifier config.v4_server_id,
            .subnetMask mask, .router [gw],
            .domainNameServer config.dns_v4,
            .addressLeaseTime V4.ADDRESS_LEASE_TIME,
            .renewal V4.RENEWAL_TIME, .rebinding V4.REBINDING_TIME,
            .optEnd]⟩ (some res) (some mi),
        leases.lease_v4 now res mac
          (match res.v4_key with
            | some (V4Key.Option82 opt) => some opt
            | _ => none) V4.ADDRESS_LEASE_TIME)
  ∧ (∀ (msgD replyD : V4Message) (rD : Option Reservation)
        (miD : Option ReservationMatch),
      macAddr6TryFrom msgD.chaddr = some mac →
      msgD.relay_agent_information = msg.relay_agent_information →
      V4.handle_discover reservations config msgD =
        .Message replyD rD miD →
      replyD.opts = [.messageType .Offer,
        .serverIdentifier config.v4_server_id, .subnetMask mask,
        .router [gw], .domainNameServer config.dns_v4,
        .addressLeaseTime V4.ADDRESS_LEASE_TIME, .renewal V4.RENEWAL_TIME,
        .rebinding V4.REBINDING_TIME, .optEnd])
  ∧ (∀ opt, res.v4_key = some (V4Key.Option82 opt) →
      assocHas ((V4.handle_request reservations leases config now
        msg).2).mac_to_opt82 mac = true)
  ∧ ((∀ opt, res.v4_key ≠ some (V4Key.Option82 opt)) →
      ((V4.handle_request reservations leases config now
        msg).2).mac_to_opt82 = leases.mac_to_opt82)
  ∧ (assocHas leases.v4 res = false →
      assocGet ((V4.handle_request reservations leases config now
        msg).2).v4 res = some ⟨now, now, V4.ADDRESS_LEASE_TIME, mac,
          (match res.v4_key with
            | some (V4Key.Option82 opt) => some opt
            | _ => none)⟩) := by
  have hmain : (V4.handle_request reservations leases config now msg) =
      (.Message ⟨.BootReply, msg.xid, 0, msg.flags, 0, res.ipv4, 0,
          msg.giaddr, msg.chaddr, "dhcp.shadowinter.net",
          [.messageType .Ack, .serverIdentifier config.v4_server_id,
            .subnetMask mask, .router [gw],
            .domainNameServer config.dns_v4,
            .addressLeaseTime V4.ADDRESS_LEASE_TIME,
            .renewal V4.RENEWAL_TIME, .rebinding V4.REBINDING_TIME,
            .optEnd]⟩ (some res) (some mi),
        leases.lease_v4 now res mac
          (match res.v4_key with
            | some (V4Key.Option82 opt) => some opt
            | _ => none) V4.ADDRESS_LEASE_TIME) := by
    simp [V4.handle_request, hmac, hres, hsub, hclass, heq,
      V4.replyHeader, v4OptsInsert, V4Opt.code]
  refine ⟨hmain, ?_, ?_, ?_, ?_⟩
  · intro msgD replyD rD miD hmacD hrelD h
    simp only [V4.handle_discover, hmacD, hrelD, hres, hsub] at h
    rw [V4.DhcpV4Response.Message.injEq] at h
    obtain ⟨hreply, hrD, hmiD⟩ := h
    rw [← hreply]
    simp [V4.replyHeader, v4OptsInsert, V4Opt.code]
  · intro opt hkey
    rw [hmain]
    simp only [hkey]
    rw [lease_v4_opt82_some]
    exact insert_binding_has leases now mac opt
  · intro hnot
    rw [hmain]
    have hnone : (match res.v4_key with
        | some (V4Key.Option82 opt) => some opt
        | _ => none) = (none : Option Option82) := by
      rcases hk : res.v4_key with _ | k
      · rfl
      · cases k with
        | Mac m => rfl
        | Option82 o => exact absurd hk (hnot o)
    rw [hnone]
    exact lease_v4_opt82_none leases now res mac V4.ADDRESS_LEASE_TIME
  · intro hfresh
    rw [hmain]
    exact lease_v4_fresh leases now res mac _ _ hfresh

/-- Witness for C5: a concrete relayed SELECTING REQUEST matched through
an Option82-only reservation is ACKed; the binding is recorded because the
reservation's v4 key is its Option82 tuple, and a fresh 3600 s lease is
written. -/
theorem C5_ack_lease_and_binding_witness :
    assocHas ((V4.handle_request C5dbNoMac LeaseDb.new testConfig4 0
      C5msg).2).mac_to_opt82 C5mac = true
  ∧ assocGet ((V4.handle_request C5dbNoMac LeaseDb.new testConfig4 0
      C5msg).2).v4 C5resNoMac = some ⟨0, 0, V4.ADDRESS_LEASE_TIME, C5mac,
        some ⟨none, some "switch1:port1", none⟩⟩ :=
  ⟨(C5_ack_lease_and_binding C5dbNoMac LeaseDb.new testConfig4 0 C5msg C5mac
      C5resNoMac (ReservationMatch.option82 "remote_only") 3232235777
      4294967040 3232235976 (by decide) (by decide) (by decide) (by decide)
      (by decide)).2.2.1 ⟨none, some "switch1:port1", none⟩ (by decide),
   by
    have h := (C5_ack_lease_and_binding C5dbNoMac LeaseDb.new testConfig4 0
      C5msg C5mac C5resNoMac (ReservationMatch.option82 "remote_only")
      3232235777 4294967040 3232235976 (by decide) (by decide) (by decide)
      (by decide) (by decide)).2.2.2.2 (by decide)
    simpa using h⟩

end ShadowDhcp
